import Mathlib

/-!
# ecapture: the shell-command and TLS probes (`user/module`)

A shallow embedding of `probe_openssl.go` and `probe_bash.go`.

* Go byte arrays `[n]byte` are lists of bytes of length `n`; a slice
  expression `a[:k]` on or an index `a[i]` into such an array that is out of
  range is a run-time panic and is modelled as `none`.
* `map[string]bool` (`masterKeys`) is the list of its keys: the code only ever
  stores `true` and only ever asks for presence.
* The key-log file is the list of the `WriteString` calls issued on it, oldest
  first.
* Everything the two files call but do not define (the HKDF package, the
  traffic-control probe `MTCProbe`, the eBPF manager, the file system) is a
  field of `External`.
-/

namespace Ecapture

/-! ## Bytes and `%02x` formatting -/

/-- One byte of a Go `[]byte`. -/
abbrev Byte := Fin 256

/-- The Go array type `[n]byte`. -/
abbrev Buf (n : Nat) := { l : List Byte // l.length = n }

/-- The digit table `ldigits` of Go's `fmt` package, indexed by a nibble. -/
def hexDigit (n : Nat) : Char :=
  match n with
  | 0 => '0' | 1 => '1' | 2 => '2' | 3 => '3'
  | 4 => '4' | 5 => '5' | 6 => '6' | 7 => '7'
  | 8 => '8' | 9 => '9' | 10 => 'a' | 11 => 'b'
  | 12 => 'c' | 13 => 'd' | 14 => 'e' | _ => 'f'

/-- The two digits `fmt` prints for one byte under `%x`: high nibble first. -/
def hexByte (c : Byte) : List Char :=
  [hexDigit (c.val / 16), hexDigit (c.val % 16)]

/-- The characters of `fmt.Sprintf("%02x", b)` for a byte array or slice `b`. -/
def hexChars : List Byte → List Char
  | [] => []
  | c :: cs => hexByte c ++ hexChars cs

/-- The string `fmt.Sprintf("%02x", b)` for a byte array or slice `b`. -/
def fmtHex (b : List Byte) : String := String.mk (hexChars b)

/-- The string `fmt.Sprintf("%s %02x %02x\n", label, clientRandom, secret)`. -/
def keyLogLine (label : String) (clientRandom secret : List Byte) : String :=
  label ++ " " ++ fmtHex clientRandom ++ " " ++ fmtHex secret ++ "\n"

/-- The Go slice expression `a[:k]` on an array: a panic when `k` exceeds the
array's length. -/
def sliceTo {n : Nat} (a : Buf n) (k : Nat) : Option (List Byte) :=
  if k ≤ n then some (a.val.take k) else none

/-! ## Constants of the `hkdf`, `event` and `module` packages -/

/-- Modelled from the spec: `hkdf.KeyLogLabelTLS12`, declared outside the two
source files; the label of a TLS1.2 line of the standard key-log format. -/
def KeyLogLabelTLS12 : String := "CLIENT_RANDOM"

/-- Modelled from the spec: `hkdf.KeyLogLabelClientHandshake`, declared outside
the two source files; the key-log label of the client handshake secret. -/
def KeyLogLabelClientHandshake : String := "CLIENT_HANDSHAKE_TRAFFIC_SECRET"

/-- Modelled from the spec: `hkdf.KeyLogLabelServerHandshake`, declared outside
the two source files; the key-log label of the server handshake secret. -/
def KeyLogLabelServerHandshake : String := "SERVER_HANDSHAKE_TRAFFIC_SECRET"

/-- Modelled from the spec: `hkdf.KeyLogLabelClientTraffic`, declared outside
the two source files; the key-log label of the client traffic secret. -/
def KeyLogLabelClientTraffic : String := "CLIENT_TRAFFIC_SECRET_0"

/-- Modelled from the spec: `hkdf.KeyLogLabelServerTraffic`, declared outside
the two source files; the key-log label of the server traffic secret. -/
def KeyLogLabelServerTraffic : String := "SERVER_TRAFFIC_SECRET_0"

/-- Modelled from the spec: `hkdf.KeyLogLabelExporterSecret`, declared outside
the two source files; the key-log label of the exporter secret. -/
def KeyLogLabelExporterSecret : String := "EXPORTER_SECRET"

/-- Modelled from the spec: `hkdf.ClientHandshakeTrafficLabel`, declared outside
the two source files; the RFC 8446 label of the client handshake traffic
secret. -/
def ClientHandshakeTrafficLabel : String := "c hs traffic"

/-- Modelled from the spec: `hkdf.ServerHandshakeTrafficLabel`, declared outside
the two source files; the RFC 8446 label of the server handshake traffic
secret. -/
def ServerHandshakeTrafficLabel : String := "s hs traffic"

/-- Modelled from the spec: `hkdf.TlsAes128GcmSha256`, declared outside the two
source files; the cipher suite id of TLS_AES_128_GCM_SHA256. -/
def TlsAes128GcmSha256 : Nat := 0x1301

/-- Modelled from the spec: `hkdf.TlsAes256GcmSha384`, declared outside the two
source files; the cipher suite id of TLS_AES_256_GCM_SHA384. -/
def TlsAes256GcmSha384 : Nat := 0x1302

/-- Modelled from the spec: `hkdf.TlsChacha20Poly1305Sha256`, declared outside
the two source files; the cipher suite id of TLS_CHACHA20_POLY1305_SHA256. -/
def TlsChacha20Poly1305Sha256 : Nat := 0x1303

/-- Modelled from the spec: `event.Tls12Version`, declared outside the two
source files; the protocol-version tag of TLS1.2. -/
def Tls12Version : Int := 0x0303

/-- Modelled from the spec: `event.Tls13Version`, declared outside the two
source files; the protocol-version tag of TLS1.3. -/
def Tls13Version : Int := 0x0304

/-- Modelled from the spec: `MasterKeyHookFuncOpenSSL`, declared outside the two
source files; the field comment of `masterHookFunc` gives its value. -/
def MasterKeyHookFuncOpenSSL : String := "SSL_write"

/-- Modelled from the spec: `MasterKeyHookFuncBoringSSL`, declared outside the
two source files; the field comment of `masterHookFunc` gives its value. -/
def MasterKeyHookFuncBoringSSL : String := "SSL_in_init"

/-- The values of `crypto.Hash` the probe selects. -/
inductive Hash where
  | SHA256
  | SHA384
deriving DecidableEq, Repr

/-- The type `EBPFPROGRAMTYPE` is a `uint8`. -/
abbrev EBPFPROGRAMTYPE := Nat

/-- The first constant of the `iota` block. -/
def EbpfprogramtypeOpensslTc : EBPFPROGRAMTYPE := 0

/-- The second constant of the `iota` block. -/
def EbpfprogramtypeOpensslUprobe : EBPFPROGRAMTYPE := 1

/-! ## Events -/

/-- Modelled from the spec: `event.MasterSecretEvent`, declared outside the two
source files; the fixed-width fields the probe reads (a 32-byte client random, a
48-byte master key, 64-byte TLS1.3 secret buffers). -/
structure MasterSecretEvent where
  Version : Int
  ClientRandom : Buf 32
  MasterKey : Buf 48
  CipherId : Nat
  HandshakeSecret : Buf 64
  HandshakeTrafficHash : Buf 64
  ClientAppTrafficSecret : Buf 64
  ServerAppTrafficSecret : Buf 64
  ExporterMasterSecret : Buf 64
deriving DecidableEq

/-- Modelled from the spec: `event.MasterSecretBSSLEvent`, declared outside the
two source files; the fixed-width fields the probe reads (a 32-byte client
random, a 48-byte TLS1.2 secret, the declared length `HashLen`, 64-byte TLS1.3
secret buffers). -/
structure MasterSecretBSSLEvent where
  Version : Int
  ClientRandom : Buf 32
  Secret : Buf 48
  HashLen : Nat
  EarlyTrafficSecret : Buf 64
  ClientHandshakeSecret : Buf 64
  ClientTrafficSecret0 : Buf 64
  ServerHandshakeSecret : Buf 64
  ServerTrafficSecret0 : Buf 64
  ExporterSecret : Buf 64
deriving DecidableEq

/-- Modelled from the spec: `event.TcSkbEvent`, declared outside the two source
files; the raw link-layer capture event, which the probe only hands on. -/
structure TcSkbEvent where
  payload : List Byte
deriving DecidableEq

/-- The dynamic types an `event.IEventStruct` value can have. -/
inductive IEventStruct where
  | ConnDataEvent
  | MasterSecretEvent (e : Ecapture.MasterSecretEvent)
  | MasterSecretBSSLEvent (e : Ecapture.MasterSecretBSSLEvent)
  | TcSkbEvent (e : Ecapture.TcSkbEvent)
  | SSLDataEvent
  | BashEvent
deriving DecidableEq

/-! ## The attach plan -/

/-- The fields of `manager.Probe` the two files set. -/
structure Probe where
  Section : String
  EbpfFuncName : String
  AttachToFuncName : String
  BinaryPath : String
  UID : String := ""
deriving DecidableEq, Repr

/-- The fields of `manager.Manager` the two files set: the attach points and
the names of the kernel data channels. -/
structure Manager where
  Probes : List Probe
  Maps : List String
deriving DecidableEq, Repr

/-- What the probes print on their logger. -/
inductive LogLine where
  | nonTls13CipherSuite (cipherId : Nat)
  | saveToFileError (version : Int)
  | saveToPcapngError (version : Int)
  | saveSuccess (version : Int) (clientRandom : List Byte) (l : Nat)
  | savePacketError
  | sslVersion (v : String)
  | bytecodeNotFound
  | hookType (elfType : Nat) (binaryPath : String)
  | hookMasterKey (fn : String)
  | savingPcapng
  | savePcapngFailed
  | nothingCaptured
  | savedPackets (i : Nat)
  | close
  | targetAllProcess
  | targetPid (pid : Int)
  | targetAllUsers
  | targetUid (uid : Int)
  | hookBinaryPath (binaryPath : String) (functionName : String)
deriving DecidableEq, Repr

/-- The calls of `Close` that release what the probe owns. -/
inductive ReleaseCall where
  | Stop
  | ModuleClose
deriving DecidableEq, Repr

/-- Modelled from the spec: `config.ElfTypeBin`, declared outside the two source
files; the path kind "executable". -/
def ElfTypeBin : Nat := 1

/-- Modelled from the spec: `config.ElfTypeSo`, declared outside the two source
files; the path kind "shared library". -/
def ElfTypeSo : Nat := 2

/-- Modelled from the spec: `config.OpensslConfig`, declared outside the two
source files; the accessors and fields the TLS probe reads. -/
structure OpensslConfig where
  Pid : Int
  Uid : Int
  EnableGlobalVar : Bool
  ElfType : Nat
  Curlpath : String
  Openssl : String
  SslVersion : String
  Write : String
  Port : Nat
deriving DecidableEq, Repr

/-- Modelled from the spec: `config.BashConfig`, declared outside the two source
files; the accessors and fields the shell-command probe reads. -/
structure BashConfig where
  Pid : Int
  Uid : Int
  EnableGlobalVar : Bool
  ElfType : Nat
  Bashpath : String
  Readline : String
  ErrNo : Int
deriving DecidableEq, Repr

/-- The conversion `uint64(v)` of a Go integer. -/
def toUint64 (v : Int) : Nat := (v % 18446744073709551616).toNat

/-- The fields of `manager.Options` the two files set; `ConstantEditors` holds
the name and the value of each `manager.ConstantEditor`. -/
structure Options where
  DefaultKProbeMaxActive : Nat
  LogSize : Nat
  RLimitCur : Nat
  RLimitMax : Nat
  ConstantEditors : List (String × Nat)
deriving DecidableEq, Repr

/-- The zero value of `manager.Options`. -/
def Options.zero : Options := ⟨0, 0, 0, 0, []⟩

/-- The constant `math.MaxUint64`. -/
def MaxUint64 : Nat := 18446744073709551615

/-- How the process stands: `log.Fatalf` ends it with `os.Exit`, an index or a
slice bound out of range ends it with a panic. -/
inductive Status where
  | running
  | fatal
  | panicked
deriving DecidableEq, Repr

/-! ## The TLS probe -/

/-- The fields of `MOpenSSLProbe` the two files use; `mtc` is the embedded
`MTCProbe`, whose type `T` is declared elsewhere. -/
structure MOpenSSLProbe (T : Type) where
  mtc : T
  conf : OpensslConfig
  bpfManager : Option Manager
  bpfManagerOptions : Options
  keylogger : List String
  masterKeys : List String
  eBPFProgramType : EBPFPROGRAMTYPE
  sslVersionBpfMap : List (String × String)
  sslBpfFile : String
  isBoringSSL : Bool
  masterHookFunc : String
  logger : List LogLine
  status : Status
  released : List ReleaseCall

/-- The fields of `MBashProbe` the two files use. -/
structure MBashProbe where
  conf : BashConfig
  bpfManager : Option Manager
  bpfManagerOptions : Options
  logger : List LogLine
  released : List ReleaseCall

/-- What the two files call and do not define. An error result is `true` (or
`none`, where a value comes with it). -/
structure External (T : Type) where
  /-- Modelled from the spec: `hkdf.ExpandLabel(secret, label, hash, length,
  transcript)`, declared outside the two source files; the label-based
  HKDF-Expand construction, a pure function of its arguments. -/
  ExpandLabel : List Byte → String → List Byte → Nat → Hash → List Byte
  /-- The call `keylogger.WriteString(s)` of `os.File`, given the calls made
  before it: the number of bytes written, or `none` for an error. -/
  WriteString : List String → String → Option Nat
  /-- Modelled from the spec: the method `MTCProbe.savePcapngSslKeyLog`, declared
  outside the two source files; it mirrors the key-log bytes into the capture
  sink and acts on the embedded `MTCProbe` only. -/
  savePcapngSslKeyLog : T → String → T × Bool
  /-- Modelled from the spec: the method `MTCProbe.dumpTcSkb`, declared outside
  the two source files; it hands a raw capture event to the capture sink and
  acts on the embedded `MTCProbe` only. -/
  dumpTcSkb : T → TcSkbEvent → T × Bool
  /-- Modelled from the spec: the method `MTCProbe.savePcapng`, declared outside
  the two source files; it returns the packet count and the error. -/
  savePcapng : T → T × Nat × Bool
  /-- Modelled from the spec: the method `detectOpenssl(soPath)`, declared
  outside the two source files; a single `detect(path) -> payloadName`
  capability: given the version table and the payload name so far, the payload
  name it leaves in `sslBpfFile` and its error. -/
  detectOpenssl : List (String × String) → String → String → String × Bool
  /-- The call `os.Stat(path)`: whether it fails. -/
  Stat : String → Bool
  /-- The call `bpfManager.Stop(manager.CleanAll)` of the eBPF manager library:
  whether it fails. -/
  Stop : Option Manager → Bool
  /-- Modelled from the spec: the call `Module.Close()` of the shared base,
  declared outside the two source files: whether it fails. -/
  ModuleClose : Bool
  /-- The function `strings.ToLower`. -/
  ToLower : String → String

/-- The statement `m[k] = true` on the key list of a `map[string]bool`. -/
def mapSet (m : List String) (k : String) : List String :=
  if k ∈ m then m else m ++ [k]

/-- The inner `switch` of `saveMasterSecret`: the hash and the length a cipher
suite selects, `none` in the `default` case. -/
def cipherParams (cipherId : Nat) : Option (Nat × Hash) :=
  let c := (cipherId &&& 0x0000FFFF) % 65536
  if c = TlsAes128GcmSha256 ∨ c = TlsChacha20Poly1305Sha256 then some (32, Hash.SHA256)
  else if c = TlsAes256GcmSha384 then some (48, Hash.SHA384)
  else none

/-- The end of `saveMasterSecret` (from `v := event.TlsVersion` on): the buffer
`b` is written to the key-log file and, in capture mode, mirrored. -/
def saveMasterSecretWrite {T : Type} (x : External T) (this : MOpenSSLProbe T)
    (version : Int) (clientRandom : List Byte) (b : String) : MOpenSSLProbe T :=
  match x.WriteString this.keylogger b with
  | none =>
    { this with keylogger := this.keylogger ++ [b]
                logger := this.logger ++ [LogLine.saveToFileError version]
                status := Status.fatal }
  | some l =>
    let this := { this with keylogger := this.keylogger ++ [b] }
    if this.eBPFProgramType = EbpfprogramtypeOpensslTc then
      match x.savePcapngSslKeyLog this.mtc b with
      | (mtc, true) =>
        { this with mtc := mtc
                    logger := this.logger ++ [LogLine.saveToPcapngError version]
                    status := Status.fatal }
      | (mtc, false) =>
        { this with mtc := mtc
                    logger := this.logger ++ [LogLine.saveSuccess version clientRandom l] }
    else
      { this with logger := this.logger ++ [LogLine.saveSuccess version clientRandom l] }

/-- The method `MOpenSSLProbe.saveMasterSecret`. -/
def saveMasterSecret {T : Type} (x : External T) (this : MOpenSSLProbe T)
    (secretEvent : MasterSecretEvent) : MOpenSSLProbe T :=
  let k := fmtHex secretEvent.ClientRandom.val
  if k ∈ this.masterKeys then this
  else
    let this := { this with masterKeys := mapSet this.masterKeys k }
    if secretEvent.Version = Tls12Version then
      saveMasterSecretWrite x this secretEvent.Version secretEvent.ClientRandom.val
        (keyLogLine KeyLogLabelTLS12 secretEvent.ClientRandom.val secretEvent.MasterKey.val)
    else if secretEvent.Version = Tls13Version then
      match cipherParams secretEvent.CipherId with
      | none =>
        { this with logger := this.logger ++ [LogLine.nonTls13CipherSuite secretEvent.CipherId] }
      | some (length, transcript) =>
        let clientHandshakeSecret :=
          x.ExpandLabel (secretEvent.HandshakeSecret.val.take length) ClientHandshakeTrafficLabel
            (secretEvent.HandshakeTrafficHash.val.take length) length transcript
        let serverHandshakeSecret :=
          x.ExpandLabel (secretEvent.HandshakeSecret.val.take length) ServerHandshakeTrafficLabel
            (secretEvent.HandshakeTrafficHash.val.take length) length transcript
        saveMasterSecretWrite x this secretEvent.Version secretEvent.ClientRandom.val
          (keyLogLine KeyLogLabelClientHandshake secretEvent.ClientRandom.val clientHandshakeSecret
            ++ keyLogLine KeyLogLabelServerHandshake secretEvent.ClientRandom.val serverHandshakeSecret
            ++ keyLogLine KeyLogLabelClientTraffic secretEvent.ClientRandom.val
                secretEvent.ClientAppTrafficSecret.val
            ++ keyLogLine KeyLogLabelServerTraffic secretEvent.ClientRandom.val
                secretEvent.ServerAppTrafficSecret.val
            ++ keyLogLine KeyLogLabelExporterSecret secretEvent.ClientRandom.val
                (secretEvent.ExporterMasterSecret.val.take length))
    else
      saveMasterSecretWrite x this secretEvent.Version secretEvent.ClientRandom.val
        (keyLogLine KeyLogLabelTLS12 secretEvent.ClientRandom.val secretEvent.MasterKey.val)

/-- The loop of `bSSLEvent12NullSecrets` from index `i` on, with `n` rounds
left: `isNull` is still `true` when it is entered. -/
def bSSLEvent12NullSecretsLoop (e : MasterSecretBSSLEvent) : Nat → Nat → Option Bool
  | 0, _ => some true
  | n + 1, i =>
    match e.Secret.val[i]? with
    | none => none
    | some c => if c ≠ 0 then some false else bSSLEvent12NullSecretsLoop e n (i + 1)

/-- The method `MOpenSSLProbe.bSSLEvent12NullSecrets`; `none` is the panic of an
index out of range. -/
def bSSLEvent12NullSecrets (e : MasterSecretBSSLEvent) : Option Bool :=
  bSSLEvent12NullSecretsLoop e e.HashLen 0

/-- The local variables of `bSSLEvent13NullSecrets`. -/
structure NullScan where
  isNUllCount : Int
  chsChecked : Bool
  ctsChecked : Bool
  shsChecked : Bool
  stsChecked : Bool
  esChecked : Bool
deriving DecidableEq, Repr

/-- One `if !checked && buf[i] != 0` statement of the loop body: the new count
and flag, or `none` for the panic of an index out of range. -/
def nullScanBuf (buf : Buf 64) (i : Nat) (count : Int) (checked : Bool) : Option (Int × Bool) :=
  if checked then some (count, checked)
  else
    match buf.val[i]? with
    | none => none
    | some c => if c ≠ 0 then some (count - 1, true) else some (count, checked)

/-- The body of the loop of `bSSLEvent13NullSecrets` at index `i`. -/
def nullScanStep (e : MasterSecretBSSLEvent) (i : Nat) (s : NullScan) : Option NullScan :=
  match nullScanBuf e.ClientHandshakeSecret i s.isNUllCount s.chsChecked with
  | none => none
  | some (c1, chs) =>
  match nullScanBuf e.ClientTrafficSecret0 i c1 s.ctsChecked with
  | none => none
  | some (c2, cts) =>
  match nullScanBuf e.ServerHandshakeSecret i c2 s.shsChecked with
  | none => none
  | some (c3, shs) =>
  match nullScanBuf e.ServerTrafficSecret0 i c3 s.stsChecked with
  | none => none
  | some (c4, sts) =>
  match nullScanBuf e.ExporterSecret i c4 s.esChecked with
  | none => none
  | some (c5, es) => some ⟨c5, chs, cts, shs, sts, es⟩

/-- The loop of `bSSLEvent13NullSecrets` from index `i` on, with `n` rounds
left. -/
def bSSLEvent13NullSecretsLoop (e : MasterSecretBSSLEvent) : Nat → Nat → NullScan → Option NullScan
  | 0, _, s => some s
  | n + 1, i, s =>
    match nullScanStep e i s with
    | none => none
    | some s1 => bSSLEvent13NullSecretsLoop e n (i + 1) s1

/-- The method `MOpenSSLProbe.bSSLEvent13NullSecrets`; `none` is the panic of an
index out of range. -/
def bSSLEvent13NullSecrets (e : MasterSecretBSSLEvent) : Option Bool :=
  match bSSLEvent13NullSecretsLoop e e.HashLen 0 ⟨5, false, false, false, false, false⟩ with
  | none => none
  | some s => some (decide (s.isNUllCount ≠ 0))

/-- The end of `saveMasterSecretBSSL` (from `v := event.TlsVersion` on): the
buffer `b` is written to the key-log file and, in capture mode, mirrored. -/
def saveMasterSecretBSSLWrite {T : Type} (x : External T) (this : MOpenSSLProbe T)
    (version : Int) (clientRandom : List Byte) (b : String) : MOpenSSLProbe T :=
  match x.WriteString this.keylogger b with
  | none =>
    { this with keylogger := this.keylogger ++ [b]
                logger := this.logger ++ [LogLine.saveToFileError version]
                status := Status.fatal }
  | some l =>
    let this := { this with keylogger := this.keylogger ++ [b] }
    if this.eBPFProgramType = EbpfprogramtypeOpensslTc then
      let this := { this with logger := this.logger ++ [LogLine.saveSuccess version clientRandom l] }
      match x.savePcapngSslKeyLog this.mtc b with
      | (mtc, true) =>
        { this with mtc := mtc
                    logger := this.logger ++ [LogLine.saveToPcapngError version]
                    status := Status.fatal }
      | (mtc, false) => { this with mtc := mtc }
    else
      { this with logger := this.logger ++ [LogLine.saveSuccess version clientRandom l] }

/-- The five lines `saveMasterSecretBSSL` builds on its TLS1.3 path, `none` when
a slice bound is out of range. -/
def bsslTls13Lines (secretEvent : MasterSecretBSSLEvent) (length : Nat) : Option String :=
  match sliceTo secretEvent.ClientHandshakeSecret length,
        sliceTo secretEvent.ClientTrafficSecret0 length,
        sliceTo secretEvent.ServerHandshakeSecret length,
        sliceTo secretEvent.ServerTrafficSecret0 length,
        sliceTo secretEvent.ExporterSecret length with
  | some chs, some cts, some shs, some sts, some es =>
    some (keyLogLine KeyLogLabelClientHandshake secretEvent.ClientRandom.val chs
      ++ keyLogLine KeyLogLabelClientTraffic secretEvent.ClientRandom.val cts
      ++ keyLogLine KeyLogLabelServerHandshake secretEvent.ClientRandom.val shs
      ++ keyLogLine KeyLogLabelServerTraffic secretEvent.ClientRandom.val sts
      ++ keyLogLine KeyLogLabelExporterSecret secretEvent.ClientRandom.val es)
  | _, _, _, _, _ => none

/-- The method `MOpenSSLProbe.saveMasterSecretBSSL`. -/
def saveMasterSecretBSSL {T : Type} (x : External T) (this : MOpenSSLProbe T)
    (secretEvent : MasterSecretBSSLEvent) : MOpenSSLProbe T :=
  let k := fmtHex secretEvent.ClientRandom.val
  if k ∈ this.masterKeys then this
  else if secretEvent.Version = Tls12Version then
    match bSSLEvent12NullSecrets secretEvent with
    | none => { this with status := Status.panicked }
    | some true => this
    | some false =>
      let length := secretEvent.HashLen
      match sliceTo secretEvent.Secret length with
      | none => { this with status := Status.panicked }
      | some secret =>
        let b := keyLogLine KeyLogLabelTLS12 secretEvent.ClientRandom.val secret
        let this := { this with masterKeys := mapSet this.masterKeys k }
        saveMasterSecretBSSLWrite x this secretEvent.Version secretEvent.ClientRandom.val b
  else
    let length := secretEvent.HashLen
    match bSSLEvent13NullSecrets secretEvent with
    | none => { this with status := Status.panicked }
    | some true => this
    | some false =>
      let this := { this with masterKeys := mapSet this.masterKeys k }
      match bsslTls13Lines secretEvent length with
      | none => { this with status := Status.panicked }
      | some b =>
        saveMasterSecretBSSLWrite x this secretEvent.Version secretEvent.ClientRandom.val b

/-- The method `MOpenSSLProbe.Dispatcher`. -/
def Dispatcher {T : Type} (x : External T) (this : MOpenSSLProbe T)
    (eventStruct : IEventStruct) : MOpenSSLProbe T :=
  match eventStruct with
  | IEventStruct.ConnDataEvent => this
  | IEventStruct.MasterSecretEvent e => saveMasterSecret x this e
  | IEventStruct.MasterSecretBSSLEvent e => saveMasterSecretBSSL x this e
  | IEventStruct.TcSkbEvent e =>
    match x.dumpTcSkb this.mtc e with
    | (mtc, true) => { this with mtc := mtc, logger := this.logger ++ [LogLine.savePacketError] }
    | (mtc, false) => { this with mtc := mtc }
  | _ => this

/-- The polling loop's calls of `Dispatcher`, one per event, for as long as the
process runs. -/
def dispatchAll {T : Type} (x : External T) : MOpenSSLProbe T → List IEventStruct → MOpenSSLProbe T
  | this, [] => this
  | this, e :: es =>
    if this.status = Status.running then dispatchAll x (Dispatcher x this e) es else this

/-- The client random of an event that carries one. -/
def clientRandomOf : IEventStruct → Option (List Byte)
  | IEventStruct.MasterSecretEvent e => some e.ClientRandom.val
  | IEventStruct.MasterSecretBSSLEvent e => some e.ClientRandom.val
  | _ => none

/-- The number of `WriteString` calls on the key-log file that the events with
client random `r` cause in a run of `dispatchAll`. -/
def writesFor {T : Type} (x : External T) (r : List Byte) :
    MOpenSSLProbe T → List IEventStruct → Nat
  | _, [] => 0
  | this, e :: es =>
    if this.status = Status.running then
      (if clientRandomOf e = some r ∧
          (Dispatcher x this e).keylogger.length ≠ this.keylogger.length then 1 else 0)
        + writesFor x r (Dispatcher x this e) es
    else 0

/-! ## Binary and hook resolution, shutdown -/

/-- The function `strings.Contains(s, substr)`. -/
def stringsContains (s substr : String) : Bool :=
  decide (substr.data <:+: s.data)

/-- The deferred function of `getSslBpfFile`. -/
def getSslBpfFileDefer {T : Type} (this : MOpenSSLProbe T) : MOpenSSLProbe T :=
  if stringsContains this.sslBpfFile "boringssl" then
    { this with isBoringSSL := true, masterHookFunc := MasterKeyHookFuncBoringSSL }
  else
    { this with masterHookFunc := MasterKeyHookFuncOpenSSL }

/-- The call `this.detectOpenssl(soPath)` followed by `return err`. -/
def getSslBpfFileDetect {T : Type} (x : External T) (this : MOpenSSLProbe T)
    (soPath : String) : MOpenSSLProbe T × Bool :=
  match x.detectOpenssl this.sslVersionBpfMap this.sslBpfFile soPath with
  | (bpfFile, err) => ({ this with sslBpfFile := bpfFile }, err)

/-- The body of `getSslBpfFile`, before the deferred function runs. -/
def getSslBpfFileBody {T : Type} (x : External T) (this : MOpenSSLProbe T)
    (soPath sslVersion : String) : MOpenSSLProbe T × Bool :=
  if sslVersion ≠ "" then
    let this := { this with logger := this.logger ++ [LogLine.sslVersion sslVersion] }
    match this.sslVersionBpfMap.lookup sslVersion with
    | some bpfFile => ({ this with sslBpfFile := bpfFile }, false)
    | none =>
      getSslBpfFileDetect x { this with logger := this.logger ++ [LogLine.bytecodeNotFound] } soPath
  else getSslBpfFileDetect x this soPath

/-- The method `MOpenSSLProbe.getSslBpfFile`: the probe it leaves and whether it
returns an error. -/
def getSslBpfFile {T : Type} (x : External T) (this : MOpenSSLProbe T)
    (soPath sslVersion : String) : MOpenSSLProbe T × Bool :=
  match getSslBpfFileBody x this soPath sslVersion with
  | (this, err) => (getSslBpfFileDefer this, err)

/-- The log lines of `constantEditor`, the same in both probes. -/
def constantEditorLog (pid uid : Int) : List LogLine :=
  [if pid ≤ 0 then LogLine.targetAllProcess else LogLine.targetPid pid,
   if uid ≤ 0 then LogLine.targetAllUsers else LogLine.targetUid uid]

/-- The method `MOpenSSLProbe.constantEditor`: the editors it returns. -/
def MOpenSSLProbe.constantEditor {T : Type} (this : MOpenSSLProbe T) : List (String × Nat) :=
  [("target_pid", toUint64 this.conf.Pid),
   ("target_uid", toUint64 this.conf.Uid),
   ("target_port", this.conf.Port)]

/-- The part of `setupManagersUprobe` after the binary path is resolved. -/
def setupManagersUprobePlan {T : Type} (x : External T) (this : MOpenSSLProbe T)
    (binaryPath : String) : MOpenSSLProbe T × Bool :=
  if x.Stat binaryPath then (this, true)
  else
    let this := { this with
      logger := this.logger ++
        [LogLine.hookType this.conf.ElfType binaryPath, LogLine.hookMasterKey this.masterHookFunc] }
    let this := { this with
      bpfManager := some
        { Probes :=
            [{ Section := "uprobe/SSL_write", EbpfFuncName := "probe_entry_SSL_write",
               AttachToFuncName := "SSL_write", BinaryPath := binaryPath },
             { Section := "uretprobe/SSL_write", EbpfFuncName := "probe_ret_SSL_write",
               AttachToFuncName := "SSL_write", BinaryPath := binaryPath },
             { Section := "uprobe/SSL_read", EbpfFuncName := "probe_entry_SSL_read",
               AttachToFuncName := "SSL_read", BinaryPath := binaryPath },
             { Section := "uretprobe/SSL_read", EbpfFuncName := "probe_ret_SSL_read",
               AttachToFuncName := "SSL_read", BinaryPath := binaryPath },
             { Section := "uprobe/SSL_write_key", EbpfFuncName := "probe_ssl_master_key",
               AttachToFuncName := this.masterHookFunc, BinaryPath := binaryPath,
               UID := "uprobe_ssl_master_key" }]
          Maps := ["tls_events", "connect_events", "mastersecret_events"] }
      bpfManagerOptions :=
        { DefaultKProbeMaxActive := 512, LogSize := 2097152,
          RLimitCur := MaxUint64, RLimitMax := MaxUint64, ConstantEditors := [] } }
    if this.conf.EnableGlobalVar then
      ({ this with
          bpfManagerOptions :=
            { this.bpfManagerOptions with ConstantEditors := this.constantEditor }
          logger := this.logger ++ constantEditorLog this.conf.Pid this.conf.Uid }, false)
    else (this, false)

/-- The method `MOpenSSLProbe.setupManagersUprobe`: the probe it leaves and
whether it returns an error. -/
def setupManagersUprobe {T : Type} (x : External T) (this : MOpenSSLProbe T) :
    MOpenSSLProbe T × Bool :=
  let sslVersion := x.ToLower this.conf.SslVersion
  if this.conf.ElfType = ElfTypeBin then
    setupManagersUprobePlan x this this.conf.Curlpath
  else if this.conf.ElfType = ElfTypeSo then
    let binaryPath := this.conf.Openssl
    match getSslBpfFile x this binaryPath sslVersion with
    | (this, true) => (this, true)
    | (this, false) => setupManagersUprobePlan x this binaryPath
  else
    let binaryPath := "/lib/x86_64-linux-gnu/libssl.so.1.1"
    match getSslBpfFile x this binaryPath sslVersion with
    | (this, true) => (this, true)
    | (this, false) => setupManagersUprobePlan x this binaryPath

/-- The first statement of `MOpenSSLProbe.Close`: in capture mode the packets
are saved to the pcapng file. -/
def MOpenSSLProbe.closeSavePcapng {T : Type} (x : External T) (this : MOpenSSLProbe T) :
    MOpenSSLProbe T :=
  if this.eBPFProgramType = EbpfprogramtypeOpensslTc then
    match x.savePcapng this.mtc with
    | (mtc, i, err) =>
      { this with
          mtc := mtc
          logger := this.logger ++ [LogLine.savingPcapng]
            ++ (if err then [LogLine.savePcapngFailed] else [])
            ++ (if i = 0 then [LogLine.nothingCaptured] else [LogLine.savedPackets i]) }
  else this

/-- The method `MOpenSSLProbe.Close`: the probe it leaves and whether it returns
an error. -/
def MOpenSSLProbe.Close {T : Type} (x : External T) (this : MOpenSSLProbe T) :
    MOpenSSLProbe T × Bool :=
  let this := this.closeSavePcapng x
  let this := { this with logger := this.logger ++ [LogLine.close]
                          released := this.released ++ [ReleaseCall.Stop] }
  if x.Stop this.bpfManager then (this, true)
  else ({ this with released := this.released ++ [ReleaseCall.ModuleClose] }, x.ModuleClose)

/-- The method `MBashProbe.constantEditor`: the editors it returns. -/
def MBashProbe.constantEditor (this : MBashProbe) : List (String × Nat) :=
  [("target_pid", toUint64 this.conf.Pid),
   ("target_uid", toUint64 this.conf.Uid),
   ("target_errno", toUint64 this.conf.ErrNo)]

/-- The method `MBashProbe.setupManagers`. -/
def MBashProbe.setupManagers (this : MBashProbe) : MBashProbe :=
  let binaryPath :=
    if this.conf.ElfType = ElfTypeBin then this.conf.Bashpath
    else if this.conf.ElfType = ElfTypeSo then this.conf.Readline
    else "/bin/bash"
  let this := { this with
    logger := this.logger ++
      [LogLine.hookBinaryPath binaryPath "readline",
       LogLine.hookBinaryPath binaryPath "execute_command"]
    bpfManager := some
      { Probes :=
          [{ Section := "uretprobe/bash_readline", EbpfFuncName := "uretprobe_bash_readline",
             AttachToFuncName := "readline", BinaryPath := binaryPath },
           { Section := "uretprobe/bash_retval", EbpfFuncName := "uretprobe_bash_retval",
             AttachToFuncName := "execute_command", BinaryPath := binaryPath }]
        Maps := ["events"] }
    bpfManagerOptions :=
      { DefaultKProbeMaxActive := 512, LogSize := 2097152,
        RLimitCur := MaxUint64, RLimitMax := MaxUint64, ConstantEditors := [] } }
  if this.conf.EnableGlobalVar then
    { this with
        bpfManagerOptions := { this.bpfManagerOptions with ConstantEditors := this.constantEditor }
        logger := this.logger ++ constantEditorLog this.conf.Pid this.conf.Uid }
  else this

/-- The method `MBashProbe.Close`: the probe it leaves and whether it returns an
error. -/
def MBashProbe.Close {T : Type} (x : External T) (this : MBashProbe) : MBashProbe × Bool :=
  let this := { this with released := this.released ++ [ReleaseCall.Stop] }
  if x.Stop this.bpfManager then (this, true)
  else ({ this with released := this.released ++ [ReleaseCall.ModuleClose] }, x.ModuleClose)

/-! ## Reading the key-log format back -/

/-- The value of a lowercase hexadecimal digit. -/
def hexVal (c : Char) : Option Nat :=
  let i := ['0', '1', '2', '3', '4', '5', '6', '7', '8', '9', 'a', 'b', 'c', 'd', 'e', 'f'].indexOf c
  if i < 16 then some i else none

/-- The bytes a string of lowercase hexadecimal digits, two per byte, stands
for. -/
def hexDecode : List Char → Option (List Byte)
  | [] => some []
  | [_] => none
  | a :: b :: cs =>
    match hexVal a, hexVal b, hexDecode cs with
    | some h, some l, some rest =>
      if hb : 16 * h + l < 256 then some (⟨16 * h + l, hb⟩ :: rest) else none
    | _, _, _ => none

/-- Whether an event, once its key is found absent from the dedup set, goes on
to the key-log write: an OpenSSL-family event always does here, a
BoringSSL-family event when its null-secret guard returns `false`. -/
def passesGuard : IEventStruct → Bool
  | IEventStruct.MasterSecretEvent _ => true
  | IEventStruct.MasterSecretBSSLEvent e =>
    if e.Version = Tls12Version then decide (bSSLEvent12NullSecrets e = some false)
    else decide (bSSLEvent13NullSecrets e = some false)
  | _ => false

/-- An OpenSSL-family TLS1.3 event whose cipher suite is not one of the three
the probe knows. -/
def unknownCipherSuite : IEventStruct → Bool
  | IEventStruct.MasterSecretEvent e =>
    decide (e.Version = Tls13Version) && (cipherParams e.CipherId).isNone
  | _ => false

/-- Whether an event is a master-secret event of either family. -/
def isMasterSecret : IEventStruct → Bool
  | IEventStruct.MasterSecretEvent _ => true
  | IEventStruct.MasterSecretBSSLEvent _ => true
  | _ => false

/-- Whether the bytes of an array at the indices `[0, k)` are all zero. -/
def allZeroTo {n : Nat} (a : Buf n) (k : Nat) : Bool :=
  (a.val.take k).all (fun c => decide (c = 0))

/-- The local variables of `bSSLEvent13NullSecrets` once the indices `[0, i)`
have been looked at: a buffer is flagged when it has a non-zero byte there, and
the count is five less the number of flagged buffers. -/
def nullScanAt (e : MasterSecretBSSLEvent) (i : Nat) : NullScan where
  isNUllCount := 5
    - (if allZeroTo e.ClientHandshakeSecret i then 0 else 1)
    - (if allZeroTo e.ClientTrafficSecret0 i then 0 else 1)
    - (if allZeroTo e.ServerHandshakeSecret i then 0 else 1)
    - (if allZeroTo e.ServerTrafficSecret0 i then 0 else 1)
    - (if allZeroTo e.ExporterSecret i then 0 else 1)
  chsChecked := !allZeroTo e.ClientHandshakeSecret i
  ctsChecked := !allZeroTo e.ClientTrafficSecret0 i
  shsChecked := !allZeroTo e.ServerHandshakeSecret i
  stsChecked := !allZeroTo e.ServerTrafficSecret0 i
  esChecked := !allZeroTo e.ExporterSecret i

/-- Whether at least one of the five TLS1.3 secret buffers of a BoringSSL-family
event is all zero at the indices `[0, HashLen)`. -/
def someSecretNull (e : MasterSecretBSSLEvent) : Bool :=
  allZeroTo e.ClientHandshakeSecret e.HashLen || allZeroTo e.ClientTrafficSecret0 e.HashLen ||
  allZeroTo e.ServerHandshakeSecret e.HashLen || allZeroTo e.ServerTrafficSecret0 e.HashLen ||
  allZeroTo e.ExporterSecret e.HashLen

/-- Whether all five TLS1.3 secret buffers of a BoringSSL-family event are all
zero at the indices `[0, HashLen)`. -/
def allSecretsNull (e : MasterSecretBSSLEvent) : Bool :=
  allZeroTo e.ClientHandshakeSecret e.HashLen && allZeroTo e.ClientTrafficSecret0 e.HashLen &&
  allZeroTo e.ServerHandshakeSecret e.HashLen && allZeroTo e.ServerTrafficSecret0 e.HashLen &&
  allZeroTo e.ExporterSecret e.HashLen

/-- The five lines `saveMasterSecret` builds on its TLS1.3 path, in the order
in which it appends them, for the length and the hash its inner `switch`
selected. -/
def expectedTls13Lines {T : Type} (x : External T) (e : MasterSecretEvent)
    (length : Nat) (transcript : Hash) : List String :=
  [keyLogLine KeyLogLabelClientHandshake e.ClientRandom.val
     (x.ExpandLabel (e.HandshakeSecret.val.take length) ClientHandshakeTrafficLabel
       (e.HandshakeTrafficHash.val.take length) length transcript),
   keyLogLine KeyLogLabelServerHandshake e.ClientRandom.val
     (x.ExpandLabel (e.HandshakeSecret.val.take length) ServerHandshakeTrafficLabel
       (e.HandshakeTrafficHash.val.take length) length transcript),
   keyLogLine KeyLogLabelClientTraffic e.ClientRandom.val e.ClientAppTrafficSecret.val,
   keyLogLine KeyLogLabelServerTraffic e.ClientRandom.val e.ServerAppTrafficSecret.val,
   keyLogLine KeyLogLabelExporterSecret e.ClientRandom.val
     (e.ExporterMasterSecret.val.take length)]

/-- The lowercase hexadecimal digits. -/
def lowerHexDigits : List Char :=
  ['0', '1', '2', '3', '4', '5', '6', '7', '8', '9', 'a', 'b', 'c', 'd', 'e', 'f']

/-- The binary path the first `switch` of `MBashProbe.setupManagers`
resolves. -/
def bashBinaryPath (conf : BashConfig) : String :=
  if conf.ElfType = ElfTypeBin then conf.Bashpath
  else if conf.ElfType = ElfTypeSo then conf.Readline
  else "/bin/bash"

/-- The binary path the first `switch` of `setupManagersUprobe` resolves. -/
def sslBinaryPath (conf : OpensslConfig) : String :=
  if conf.ElfType = ElfTypeBin then conf.Curlpath
  else if conf.ElfType = ElfTypeSo then conf.Openssl
  else "/lib/x86_64-linux-gnu/libssl.so.1.1"

/-! ## Sample data -/

/-- The all-zero array `[n]byte`. -/
def zeroBuf (n : Nat) : Buf n := ⟨List.replicate n 0, List.length_replicate n 0⟩

/-- The array `[n]byte` whose every byte is `c`. -/
def constBuf (n : Nat) (c : Byte) : Buf n := ⟨List.replicate n c, List.length_replicate n c⟩

/-- A surrounding system in which no call fails; `ExpandLabel` is a stand-in
that returns `length` bytes. -/
def sampleExternal : External Unit where
  ExpandLabel := fun secret _ hash length _ => (secret ++ hash).take length
  WriteString := fun _ s => some s.length
  savePcapngSslKeyLog := fun t _ => (t, false)
  dumpTcSkb := fun t _ => (t, false)
  savePcapng := fun t => (t, 0, false)
  detectOpenssl := fun _ _ _ => ("openssl_1_1_1j_kern.o", false)
  Stat := fun _ => false
  Stop := fun _ => false
  ModuleClose := false
  ToLower := fun s => s

/-- A surrounding system in which the attachment teardown fails. -/
def stopFailsExternal : External Unit := { sampleExternal with Stop := fun _ => true }

/-- A TLS probe as `Init` leaves it in direct-hook mode. -/
def sampleProbe : MOpenSSLProbe Unit where
  mtc := ()
  conf := ⟨0, 0, false, ElfTypeSo, "/usr/bin/curl", "/lib/libssl.so.1.1", "", "", 443⟩
  bpfManager := none
  bpfManagerOptions := Options.zero
  keylogger := []
  masterKeys := []
  eBPFProgramType := EbpfprogramtypeOpensslUprobe
  sslVersionBpfMap := []
  sslBpfFile := ""
  isBoringSSL := false
  masterHookFunc := ""
  logger := []
  status := Status.running
  released := []

/-- A shell-command probe as `Init` leaves it. -/
def sampleBashProbe : MBashProbe where
  conf := ⟨0, 0, false, ElfTypeBin, "/bin/bash", "", 0⟩
  bpfManager := none
  bpfManagerOptions := Options.zero
  logger := []
  released := []

/-- An OpenSSL-family event with the given version and cipher id, client random
`0x01` repeated and every secret byte `0x02`. -/
def sampleEvent (version : Int) (cipherId : Nat) : MasterSecretEvent where
  Version := version
  ClientRandom := constBuf 32 1
  MasterKey := constBuf 48 2
  CipherId := cipherId
  HandshakeSecret := constBuf 64 2
  HandshakeTrafficHash := constBuf 64 2
  ClientAppTrafficSecret := constBuf 64 2
  ServerAppTrafficSecret := constBuf 64 2
  ExporterMasterSecret := constBuf 64 2

/-- A BoringSSL-family event with the given version and declared length, client
random `0x01` repeated, client handshake secret all `c` and every other secret
all `d`. -/
def sampleBSSLEvent (version : Int) (hashLen : Nat) (c d : Byte) : MasterSecretBSSLEvent where
  Version := version
  ClientRandom := constBuf 32 1
  Secret := constBuf 48 c
  HashLen := hashLen
  EarlyTrafficSecret := zeroBuf 64
  ClientHandshakeSecret := constBuf 64 c
  ClientTrafficSecret0 := constBuf 64 d
  ServerHandshakeSecret := constBuf 64 d
  ServerTrafficSecret0 := constBuf 64 d
  ExporterSecret := constBuf 64 d

/-- The attach point of the master-key probe in a plan: the entry of section
`uprobe/SSL_write_key`. -/
def masterKeyProbe (m : Manager) : Option Probe :=
  m.Probes.find? (fun pr => pr.Section == "uprobe/SSL_write_key")

/-- A TLS probe as `Init` leaves it, configured with the path of an
executable. -/
def sampleBinProbe : MOpenSSLProbe Unit :=
  { sampleProbe with conf := { sampleProbe.conf with ElfType := ElfTypeBin } }

/-- An OpenSSL-family TLS1.2 event of another session: client random `0x07`
repeated. -/
def otherEvent : MasterSecretEvent :=
  { sampleEvent Tls12Version 0 with ClientRandom := constBuf 32 7 }

/-- A run in which a premature BoringSSL-family event, an event of another
session and two identical OpenSSL-family events arrive in this order. -/
def sampleRun : List IEventStruct :=
  [IEventStruct.MasterSecretBSSLEvent (sampleBSSLEvent Tls13Version 32 0 0),
   IEventStruct.MasterSecretEvent otherEvent,
   IEventStruct.ConnDataEvent,
   IEventStruct.MasterSecretEvent (sampleEvent Tls12Version 0),
   IEventStruct.MasterSecretEvent (sampleEvent Tls12Version 0)]

/-! ## The dedup set and the key-log file under one event -/

section Lemmas

variable {T : Type}

theorem mem_mapSet (m : List String) (k k1 : String) :
    k1 ∈ mapSet m k ↔ k1 ∈ m ∨ k1 = k := by
  unfold mapSet
  split
  · constructor
    · intro h; exact Or.inl h
    · rintro (h | h)
      · exact h
      · subst h; assumption
  · simp

theorem mapSet_self (m : List String) (k : String) : k ∈ mapSet m k :=
  (mem_mapSet m k k).2 (Or.inr rfl)

theorem mapSet_of_not_mem (m : List String) (k : String) (h : k ∉ m) :
    mapSet m k = m ++ [k] := by
  unfold mapSet
  rw [if_neg h]

theorem hexVal_hexDigit : ∀ n : Fin 16, hexVal (hexDigit n.val) = some n.val := by decide

theorem hexDecode_hexChars (bs : List Byte) : hexDecode (hexChars bs) = some bs := by
  induction bs with
  | nil => rfl
  | cons c cs ih =>
    have h1 : hexVal (hexDigit (c.val / 16)) = some (c.val / 16) :=
      hexVal_hexDigit ⟨c.val / 16, by omega⟩
    have h2 : hexVal (hexDigit (c.val % 16)) = some (c.val % 16) :=
      hexVal_hexDigit ⟨c.val % 16, by omega⟩
    show hexDecode (hexDigit (c.val / 16) :: hexDigit (c.val % 16) :: hexChars cs) = _
    unfold hexDecode
    rw [h1, h2, ih]
    have hb : 16 * (c.val / 16) + c.val % 16 < 256 := by omega
    simp only [hb, dite_true]
    have : (⟨16 * (c.val / 16) + c.val % 16, hb⟩ : Fin 256) = c := by
      apply Fin.ext
      show 16 * (c.val / 16) + c.val % 16 = c.val
      omega
    rw [this]

/-- Distinct byte strings have distinct `%02x` renderings. -/
theorem fmtHex_injective {a b : List Byte} (h : fmtHex a = fmtHex b) : a = b := by
  have h1 : hexChars a = hexChars b := by
    have := congrArg String.data h
    exact this
  have h2 := congrArg hexDecode h1
  rw [hexDecode_hexChars, hexDecode_hexChars] at h2
  exact Option.some.inj h2

theorem hexChars_length (bs : List Byte) : (hexChars bs).length = 2 * bs.length := by
  induction bs with
  | nil => rfl
  | cons c cs ih =>
    show (hexDigit (c.val / 16) :: hexDigit (c.val % 16) :: hexChars cs).length = _
    simp only [List.length_cons, ih]
    omega

theorem saveMasterSecretWrite_masterKeys (x : External T) (p : MOpenSSLProbe T)
    (v : Int) (r : List Byte) (b : String) :
    (saveMasterSecretWrite x p v r b).masterKeys = p.masterKeys := by
  unfold saveMasterSecretWrite
  split
  · rfl
  · dsimp only
    split
    · split <;> rfl
    · rfl

theorem saveMasterSecretWrite_keylogger (x : External T) (p : MOpenSSLProbe T)
    (v : Int) (r : List Byte) (b : String) :
    (saveMasterSecretWrite x p v r b).keylogger = p.keylogger ++ [b] := by
  unfold saveMasterSecretWrite
  split
  · rfl
  · dsimp only
    split
    · split <;> rfl
    · rfl

theorem saveMasterSecretBSSLWrite_masterKeys (x : External T) (p : MOpenSSLProbe T)
    (v : Int) (r : List Byte) (b : String) :
    (saveMasterSecretBSSLWrite x p v r b).masterKeys = p.masterKeys := by
  unfold saveMasterSecretBSSLWrite
  split
  · rfl
  · dsimp only
    split
    · split <;> rfl
    · rfl

theorem saveMasterSecretBSSLWrite_keylogger (x : External T) (p : MOpenSSLProbe T)
    (v : Int) (r : List Byte) (b : String) :
    (saveMasterSecretBSSLWrite x p v r b).keylogger = p.keylogger ++ [b] := by
  unfold saveMasterSecretBSSLWrite
  split
  · rfl
  · dsimp only
    split
    · split <;> rfl
    · rfl

/-- An event whose key is in the dedup set leaves the probe as it is. -/
theorem saveMasterSecret_of_mem (x : External T) (p : MOpenSSLProbe T) (e : MasterSecretEvent)
    (h : fmtHex e.ClientRandom.val ∈ p.masterKeys) : saveMasterSecret x p e = p := by
  unfold saveMasterSecret
  simp only [h, if_true]

/-- An event whose key is in the dedup set leaves the probe as it is. -/
theorem saveMasterSecretBSSL_of_mem (x : External T) (p : MOpenSSLProbe T)
    (e : MasterSecretBSSLEvent)
    (h : fmtHex e.ClientRandom.val ∈ p.masterKeys) : saveMasterSecretBSSL x p e = p := by
  unfold saveMasterSecretBSSL
  simp only [h, if_true]

/-- The dedup set after `saveMasterSecret`: the old one, or the old one with the
event's key. -/
theorem saveMasterSecret_masterKeys (x : External T) (p : MOpenSSLProbe T)
    (e : MasterSecretEvent) :
    (saveMasterSecret x p e).masterKeys = p.masterKeys ∨
      (saveMasterSecret x p e).masterKeys = mapSet p.masterKeys (fmtHex e.ClientRandom.val) := by
  unfold saveMasterSecret
  dsimp only
  split
  · exact Or.inl rfl
  · right
    split
    · rw [saveMasterSecretWrite_masterKeys]
    · split
      · split
        · rfl
        · rw [saveMasterSecretWrite_masterKeys]
      · rw [saveMasterSecretWrite_masterKeys]

/-- The dedup set after `saveMasterSecretBSSL`: the old one, or the old one with
the event's key. -/
theorem saveMasterSecretBSSL_masterKeys (x : External T) (p : MOpenSSLProbe T)
    (e : MasterSecretBSSLEvent) :
    (saveMasterSecretBSSL x p e).masterKeys = p.masterKeys ∨
      (saveMasterSecretBSSL x p e).masterKeys
        = mapSet p.masterKeys (fmtHex e.ClientRandom.val) := by
  unfold saveMasterSecretBSSL
  dsimp only
  split
  · exact Or.inl rfl
  · split
    · split
      · exact Or.inl rfl
      · exact Or.inl rfl
      · split
        · exact Or.inl rfl
        · right; rw [saveMasterSecretBSSLWrite_masterKeys]
    · split
      · exact Or.inl rfl
      · exact Or.inl rfl
      · split
        · exact Or.inr rfl
        · right; rw [saveMasterSecretBSSLWrite_masterKeys]

/-- A call of `saveMasterSecret` that changes the key-log file found the key
absent and inserted it. -/
theorem saveMasterSecret_write (x : External T) (p : MOpenSSLProbe T) (e : MasterSecretEvent)
    (h : (saveMasterSecret x p e).keylogger ≠ p.keylogger) :
    fmtHex e.ClientRandom.val ∉ p.masterKeys ∧
      fmtHex e.ClientRandom.val ∈ (saveMasterSecret x p e).masterKeys := by
  by_cases hk : fmtHex e.ClientRandom.val ∈ p.masterKeys
  · rw [saveMasterSecret_of_mem x p e hk] at h
    exact absurd rfl h
  · refine ⟨hk, ?_⟩
    unfold saveMasterSecret
    dsimp only
    rw [if_neg hk]
    split
    · rw [saveMasterSecretWrite_masterKeys]; exact mapSet_self _ _
    · split
      · split
        · exact mapSet_self _ _
        · rw [saveMasterSecretWrite_masterKeys]; exact mapSet_self _ _
      · rw [saveMasterSecretWrite_masterKeys]; exact mapSet_self _ _

/-- A call of `saveMasterSecretBSSL` that changes the key-log file found the key
absent and inserted it. -/
theorem saveMasterSecretBSSL_write (x : External T) (p : MOpenSSLProbe T)
    (e : MasterSecretBSSLEvent)
    (h : (saveMasterSecretBSSL x p e).keylogger ≠ p.keylogger) :
    fmtHex e.ClientRandom.val ∉ p.masterKeys ∧
      fmtHex e.ClientRandom.val ∈ (saveMasterSecretBSSL x p e).masterKeys := by
  by_cases hk : fmtHex e.ClientRandom.val ∈ p.masterKeys
  · rw [saveMasterSecretBSSL_of_mem x p e hk] at h
    exact absurd rfl h
  · refine ⟨hk, ?_⟩
    revert h
    unfold saveMasterSecretBSSL
    dsimp only
    rw [if_neg hk]
    split
    · split
      · intro h; exact absurd rfl h
      · intro h; exact absurd rfl h
      · split
        · intro h; exact absurd rfl h
        · intro _; rw [saveMasterSecretBSSLWrite_masterKeys]; exact mapSet_self _ _
    · split
      · intro h; exact absurd rfl h
      · intro h; exact absurd rfl h
      · split
        · intro h; exact absurd rfl h
        · intro _; rw [saveMasterSecretBSSLWrite_masterKeys]; exact mapSet_self _ _

/-- The dedup set never loses a key. -/
theorem Dispatcher_masterKeys_mono (x : External T) (p : MOpenSSLProbe T) (ev : IEventStruct)
    (k : String) (h : k ∈ p.masterKeys) : k ∈ (Dispatcher x p ev).masterKeys := by
  cases ev with
  | MasterSecretEvent e =>
    show k ∈ (saveMasterSecret x p e).masterKeys
    rcases saveMasterSecret_masterKeys x p e with h1 | h1 <;> rw [h1]
    · exact h
    · exact (mem_mapSet _ _ _).2 (Or.inl h)
  | MasterSecretBSSLEvent e =>
    show k ∈ (saveMasterSecretBSSL x p e).masterKeys
    rcases saveMasterSecretBSSL_masterKeys x p e with h1 | h1 <;> rw [h1]
    · exact h
    · exact (mem_mapSet _ _ _).2 (Or.inl h)
  | TcSkbEvent e =>
    unfold Dispatcher
    dsimp only
    split <;> exact h
  | ConnDataEvent => exact h
  | SSLDataEvent => exact h
  | BashEvent => exact h

/-- An event whose key is in the dedup set leaves the probe as it is. -/
theorem Dispatcher_of_mem (x : External T) (p : MOpenSSLProbe T) (ev : IEventStruct)
    (r : List Byte) (hr : clientRandomOf ev = some r) (h : fmtHex r ∈ p.masterKeys) :
    Dispatcher x p ev = p := by
  cases ev with
  | MasterSecretEvent e =>
    simp only [clientRandomOf, Option.some.injEq] at hr
    subst hr
    exact saveMasterSecret_of_mem x p e h
  | MasterSecretBSSLEvent e =>
    simp only [clientRandomOf, Option.some.injEq] at hr
    subst hr
    exact saveMasterSecretBSSL_of_mem x p e h
  | TcSkbEvent e => simp [clientRandomOf] at hr
  | ConnDataEvent => rfl
  | SSLDataEvent => rfl
  | BashEvent => rfl

/-- A dispatch that changes the key-log file for an event with client random `r`
found the key of `r` absent and inserted it. -/
theorem Dispatcher_write (x : External T) (p : MOpenSSLProbe T) (ev : IEventStruct)
    (r : List Byte) (hr : clientRandomOf ev = some r)
    (h : (Dispatcher x p ev).keylogger ≠ p.keylogger) :
    fmtHex r ∉ p.masterKeys ∧ fmtHex r ∈ (Dispatcher x p ev).masterKeys := by
  cases ev with
  | MasterSecretEvent e =>
    simp only [clientRandomOf, Option.some.injEq] at hr
    subst hr
    exact saveMasterSecret_write x p e h
  | MasterSecretBSSLEvent e =>
    simp only [clientRandomOf, Option.some.injEq] at hr
    subst hr
    exact saveMasterSecretBSSL_write x p e h
  | TcSkbEvent e => simp [clientRandomOf] at hr
  | ConnDataEvent => simp [clientRandomOf] at hr
  | SSLDataEvent => simp [clientRandomOf] at hr
  | BashEvent => simp [clientRandomOf] at hr

/-- Once the key of `r` is in the dedup set, no later event writes for `r`. -/
theorem writesFor_of_mem (x : External T) (r : List Byte) (es : List IEventStruct) :
    ∀ p : MOpenSSLProbe T, fmtHex r ∈ p.masterKeys → writesFor x r p es = 0 := by
  induction es with
  | nil => intro p _; rfl
  | cons e es ih =>
    intro p h
    unfold writesFor
    split
    · rw [ih _ (Dispatcher_masterKeys_mono x p e _ h)]
      split
      · rename_i hc
        exact absurd (congrArg List.length (congrArg MOpenSSLProbe.keylogger
          (Dispatcher_of_mem x p e r hc.1 h))) hc.2
      · rfl
    · rfl

/-- The events with client random `r` cause at most one write, whatever the
probe they start from. -/
theorem writesFor_le_one (x : External T) (r : List Byte) (es : List IEventStruct) :
    ∀ p : MOpenSSLProbe T, writesFor x r p es ≤ 1 := by
  induction es with
  | nil => intro p; exact Nat.zero_le 1
  | cons e es ih =>
    intro p
    unfold writesFor
    split
    · split
      · rename_i hc
        have hne : (Dispatcher x p e).keylogger ≠ p.keylogger :=
          fun heq => hc.2 (congrArg List.length heq)
        rw [writesFor_of_mem x r es _ (Dispatcher_write x p e r hc.1 hne).2]
      · rw [Nat.zero_add]; exact ih _
    · exact Nat.zero_le 1

/-- The dedup set after a dispatch: the old one, or the old one with the key of
the event's client random. -/
theorem Dispatcher_masterKeys (x : External T) (p : MOpenSSLProbe T) (ev : IEventStruct) :
    (Dispatcher x p ev).masterKeys = p.masterKeys ∨
      ∃ r1, clientRandomOf ev = some r1 ∧
        (Dispatcher x p ev).masterKeys = mapSet p.masterKeys (fmtHex r1) := by
  cases ev with
  | MasterSecretEvent e =>
    rcases saveMasterSecret_masterKeys x p e with h | h
    · exact Or.inl h
    · exact Or.inr ⟨_, rfl, h⟩
  | MasterSecretBSSLEvent e =>
    rcases saveMasterSecretBSSL_masterKeys x p e with h | h
    · exact Or.inl h
    · exact Or.inr ⟨_, rfl, h⟩
  | TcSkbEvent e =>
    left
    unfold Dispatcher
    dsimp only
    split <;> rfl
  | ConnDataEvent => exact Or.inl rfl
  | SSLDataEvent => exact Or.inl rfl
  | BashEvent => exact Or.inl rfl

/-- An event of another session does not put the key of `r` into the dedup
set. -/
theorem Dispatcher_other (x : External T) (p : MOpenSSLProbe T) (ev : IEventStruct)
    (r : List Byte) (hr : clientRandomOf ev ≠ some r) (h : fmtHex r ∉ p.masterKeys) :
    fmtHex r ∉ (Dispatcher x p ev).masterKeys := by
  rcases Dispatcher_masterKeys x p ev with h1 | ⟨r1, hr1, h1⟩
  · rw [h1]; exact h
  · rw [h1, mem_mapSet]
    rintro (h2 | h2)
    · exact h h2
    · apply hr
      rw [hr1, fmtHex_injective h2]

/-- A stopped process takes no further event. -/
theorem dispatchAll_of_not_running (x : External T) (p : MOpenSSLProbe T)
    (es : List IEventStruct) (h : p.status ≠ Status.running) : dispatchAll x p es = p := by
  cases es with
  | nil => rfl
  | cons e es =>
    unfold dispatchAll
    rw [if_neg h]

/-- A run that ends running was running before and after its first event. -/
theorem dispatchAll_cons_running (x : External T) (p : MOpenSSLProbe T) (e : IEventStruct)
    (es : List IEventStruct) (h : (dispatchAll x p (e :: es)).status = Status.running) :
    p.status = Status.running ∧ (Dispatcher x p e).status = Status.running ∧
      (dispatchAll x (Dispatcher x p e) es).status = Status.running := by
  have hp : p.status = Status.running := by
    by_contra hn
    rw [dispatchAll_of_not_running x p _ hn] at h
    exact hn h
  have h1 : dispatchAll x p (e :: es) = dispatchAll x (Dispatcher x p e) es := by
    show (if p.status = Status.running then dispatchAll x (Dispatcher x p e) es else p) = _
    rw [if_pos hp]
  rw [h1] at h
  refine ⟨hp, ?_, h⟩
  by_contra hn
  rw [dispatchAll_of_not_running x _ _ hn] at h
  exact hn h

/-- An event that passes its guard, with its key absent and a recognised cipher
suite, appends one write to the key-log file unless the process stops. -/
theorem Dispatcher_passes (x : External T) (p : MOpenSSLProbe T) (ev : IEventStruct)
    (r : List Byte) (hr : clientRandomOf ev = some r) (hk : fmtHex r ∉ p.masterKeys)
    (hg : passesGuard ev = true) (hc : unknownCipherSuite ev = false)
    (hs : (Dispatcher x p ev).status = Status.running) :
    ∃ b, (Dispatcher x p ev).keylogger = p.keylogger ++ [b] := by
  cases ev with
  | MasterSecretEvent e =>
    simp only [clientRandomOf, Option.some.injEq] at hr
    subst hr
    show ∃ b, (saveMasterSecret x p e).keylogger = _
    unfold saveMasterSecret
    dsimp only
    rw [if_neg hk]
    split
    · exact ⟨_, saveMasterSecretWrite_keylogger _ _ _ _ _⟩
    · rename_i h12
      split
      · rename_i h13
        split
        · rename_i hnone
          simp [unknownCipherSuite, h13, hnone] at hc
        · exact ⟨_, saveMasterSecretWrite_keylogger _ _ _ _ _⟩
      · exact ⟨_, saveMasterSecretWrite_keylogger _ _ _ _ _⟩
  | MasterSecretBSSLEvent e =>
    simp only [clientRandomOf, Option.some.injEq] at hr
    subst hr
    revert hs
    show (saveMasterSecretBSSL x p e).status = _ → ∃ b, (saveMasterSecretBSSL x p e).keylogger = _
    unfold saveMasterSecretBSSL
    dsimp only
    rw [if_neg hk]
    split
    · rename_i h12
      simp only [passesGuard, h12, if_true, decide_eq_true_eq] at hg
      rw [hg]
      dsimp only
      split
      · intro hs; exact Status.noConfusion hs
      · intro _; exact ⟨_, saveMasterSecretBSSLWrite_keylogger _ _ _ _ _⟩
    · rename_i h12
      simp only [passesGuard, h12, if_false, decide_eq_true_eq] at hg
      rw [hg]
      dsimp only
      split
      · intro hs; exact Status.noConfusion hs
      · intro _; exact ⟨_, saveMasterSecretBSSLWrite_keylogger _ _ _ _ _⟩
  | TcSkbEvent e => simp [clientRandomOf] at hr
  | ConnDataEvent => simp [clientRandomOf] at hr
  | SSLDataEvent => simp [clientRandomOf] at hr
  | BashEvent => simp [clientRandomOf] at hr

/-- An event that fails its guard leaves the probe as it is unless the process
stops. -/
theorem Dispatcher_fails (x : External T) (p : MOpenSSLProbe T) (ev : IEventStruct)
    (r : List Byte) (hr : clientRandomOf ev = some r)
    (hg : passesGuard ev = false)
    (hs : (Dispatcher x p ev).status = Status.running) :
    Dispatcher x p ev = p := by
  cases ev with
  | MasterSecretEvent e => simp [passesGuard] at hg
  | MasterSecretBSSLEvent e =>
    revert hs
    show (saveMasterSecretBSSL x p e).status = _ → saveMasterSecretBSSL x p e = p
    unfold saveMasterSecretBSSL
    dsimp only
    split
    · intro _; rfl
    · split
      · rename_i h12
        simp only [passesGuard, h12, if_true, decide_eq_false_iff_not] at hg
        split
        · intro hs; exact Status.noConfusion hs
        · intro _; rfl
        · rename_i hf; exact absurd hf hg
      · rename_i h12
        simp only [passesGuard, h12, if_false, decide_eq_false_iff_not] at hg
        split
        · intro hs; exact Status.noConfusion hs
        · intro _; rfl
        · rename_i hf; exact absurd hf hg
  | TcSkbEvent e => simp [clientRandomOf] at hr
  | ConnDataEvent => rfl
  | SSLDataEvent => rfl
  | BashEvent => rfl

/-- The number of writes for `r` in a run that is not cut short: one when some
event for `r` passes its guard, none otherwise. -/
theorem writesFor_exact (x : External T) (r : List Byte) (es : List IEventStruct) :
    ∀ p : MOpenSSLProbe T, fmtHex r ∉ p.masterKeys →
      (dispatchAll x p es).status = Status.running →
      (∀ e ∈ es, clientRandomOf e = some r → unknownCipherSuite e = false) →
      writesFor x r p es =
        if es.any (fun e => decide (clientRandomOf e = some r) && passesGuard e) then 1 else 0 := by
  induction es with
  | nil => intro p _ _ _; rfl
  | cons e es ih =>
    intro p hk hs hc
    obtain ⟨hp, hd, hrest⟩ := dispatchAll_cons_running x p e es hs
    have hc1 : ∀ e1 ∈ es, clientRandomOf e1 = some r → unknownCipherSuite e1 = false :=
      fun e1 he1 => hc e1 (List.mem_cons_of_mem _ he1)
    unfold writesFor
    rw [if_pos hp, List.any_cons]
    by_cases hr : clientRandomOf e = some r
    · cases hg : passesGuard e with
      | true =>
        obtain ⟨b, hb⟩ := Dispatcher_passes x p e r hr hk hg (hc e (List.mem_cons_self _ _) hr) hd
        have hne : (Dispatcher x p e).keylogger ≠ p.keylogger := by
          rw [hb]; simp
        have hlen : (Dispatcher x p e).keylogger.length ≠ p.keylogger.length := by
          rw [hb]; simp
        rw [writesFor_of_mem x r es _ (Dispatcher_write x p e r hr hne).2]
        simp [hr, hlen]
      | false =>
        have hsame := Dispatcher_fails x p e r hr hg hd
        rw [hsame] at hrest ⊢
        rw [ih p hk hrest hc1]
        simp [hr]
    · rw [ih _ (Dispatcher_other x p e r hr hk) hrest hc1]
      simp [hr]

/-! ### The null-secret guards -/

theorem allZeroTo_zero {n : Nat} (a : Buf n) : allZeroTo a 0 = true := by
  simp [allZeroTo]

theorem allZeroTo_succ {n : Nat} (a : Buf n) (i : Nat) (c : Byte)
    (h : a.val[i]? = some c) :
    allZeroTo a (i + 1) = (allZeroTo a i && decide (c = 0)) := by
  unfold allZeroTo
  rw [List.take_succ, h]
  simp

theorem getElem?_of_lt {n : Nat} (a : Buf n) (i : Nat) (h : i < n) :
    ∃ c, a.val[i]? = some c := by
  have hl : i < a.val.length := by rw [a.property]; exact h
  exact ⟨a.val[i], List.getElem?_eq_getElem hl⟩

/-- One statement of the loop body moves a flag and the count from index `i` to
index `i + 1`. -/
theorem nullScanBuf_step (buf : Buf 64) (i : Nat) (count : Int) (h : i < 64) :
    nullScanBuf buf i count (!allZeroTo buf i) =
      some (count + (if allZeroTo buf i then 0 else 1)
              - (if allZeroTo buf (i + 1) then 0 else 1), !allZeroTo buf (i + 1)) := by
  obtain ⟨c, hc⟩ := getElem?_of_lt buf i h
  have hs := allZeroTo_succ buf i c hc
  unfold nullScanBuf
  cases hz : allZeroTo buf i with
  | false =>
    rw [hz] at hs
    simp only [Bool.false_and] at hs
    simp [hs]
  | true =>
    rw [hz] at hs
    simp only [Bool.true_and] at hs
    simp only [Bool.not_true, Bool.false_eq_true, if_false, hc, hs]
    by_cases h0 : c = 0
    · simp [h0]
    · simp [h0]

theorem nullScanStep_at (e : MasterSecretBSSLEvent) (i : Nat) (h : i < 64) :
    nullScanStep e i (nullScanAt e i) = some (nullScanAt e (i + 1)) := by
  unfold nullScanStep
  simp only [nullScanAt]
  rw [nullScanBuf_step e.ClientHandshakeSecret i _ h]
  dsimp only
  rw [nullScanBuf_step e.ClientTrafficSecret0 i _ h]
  dsimp only
  rw [nullScanBuf_step e.ServerHandshakeSecret i _ h]
  dsimp only
  rw [nullScanBuf_step e.ServerTrafficSecret0 i _ h]
  dsimp only
  rw [nullScanBuf_step e.ExporterSecret i _ h]
  dsimp only
  congr 2
  omega

theorem bSSLEvent13NullSecretsLoop_at (e : MasterSecretBSSLEvent) (n : Nat) :
    ∀ i, i + n ≤ 64 →
      bSSLEvent13NullSecretsLoop e n i (nullScanAt e i) = some (nullScanAt e (i + n)) := by
  induction n with
  | zero => intro i _; rfl
  | succ n ih =>
    intro i h
    unfold bSSLEvent13NullSecretsLoop
    rw [nullScanStep_at e i (by omega)]
    dsimp only
    rw [ih (i + 1) (by omega)]
    congr 2
    omega

theorem nullScanAt_zero (e : MasterSecretBSSLEvent) :
    nullScanAt e 0 = ⟨5, false, false, false, false, false⟩ := by
  simp [nullScanAt, allZeroTo_zero]

theorem nullCount_ne_zero (a b c d f : Bool) :
    decide ((5 : Int) - (if a = true then 0 else 1) - (if b = true then 0 else 1)
        - (if c = true then 0 else 1) - (if d = true then 0 else 1)
        - (if f = true then 0 else 1) ≠ 0)
      = (a || b || c || d || f) := by
  cases a <;> cases b <;> cases c <;> cases d <;> cases f <;> decide

/-- The guard of the TLS1.3 path returns `true` exactly when some one of the
five buffers is all zero up to the declared length. -/
theorem bSSLEvent13NullSecrets_eq (e : MasterSecretBSSLEvent) (h : e.HashLen ≤ 64) :
    bSSLEvent13NullSecrets e = some (someSecretNull e) := by
  unfold bSSLEvent13NullSecrets
  rw [← nullScanAt_zero e, bSSLEvent13NullSecretsLoop_at e e.HashLen 0 (by omega)]
  dsimp only
  rw [Nat.zero_add]
  congr 1
  unfold someSecretNull
  simp only [nullScanAt]
  exact nullCount_ne_zero _ _ _ _ _

theorem bSSLEvent12NullSecretsLoop_eq (e : MasterSecretBSSLEvent) (n : Nat) :
    ∀ i, i + n ≤ 48 →
      bSSLEvent12NullSecretsLoop e n i
        = some (((e.Secret.val.drop i).take n).all (fun c => decide (c = 0))) := by
  induction n with
  | zero => intro i _; simp [bSSLEvent12NullSecretsLoop]
  | succ n ih =>
    intro i h
    have hl : i < e.Secret.val.length := by rw [e.Secret.property]; omega
    unfold bSSLEvent12NullSecretsLoop
    rw [List.getElem?_eq_getElem hl]
    dsimp only
    rw [List.drop_eq_getElem_cons hl, List.take_succ_cons, List.all_cons]
    by_cases h0 : e.Secret.val[i] = 0
    · rw [if_neg (by simpa using h0), ih (i + 1) (by omega)]
      simp [h0]
    · rw [if_pos h0]
      simp [h0]

/-- The guard of the TLS1.2 path returns `true` exactly when `Secret` is all
zero up to the declared length. -/
theorem bSSLEvent12NullSecrets_eq (e : MasterSecretBSSLEvent) (h : e.HashLen ≤ 48) :
    bSSLEvent12NullSecrets e = some (allZeroTo e.Secret e.HashLen) := by
  unfold bSSLEvent12NullSecrets
  rw [bSSLEvent12NullSecretsLoop_eq e e.HashLen 0 (by omega)]
  simp [allZeroTo]

theorem sliceTo_of_le {n : Nat} (a : Buf n) (k : Nat) (h : k ≤ n) :
    sliceTo a k = some (a.val.take k) := by
  unfold sliceTo
  rw [if_pos h]

theorem hexDigit_mem : ∀ n : Fin 16, hexDigit n.val ∈ lowerHexDigits := by decide

theorem hexChars_mem (bs : List Byte) : ∀ c ∈ hexChars bs, c ∈ lowerHexDigits := by
  induction bs with
  | nil => intro c hc; cases hc
  | cons b bs ih =>
    intro c hc
    have hc1 : c ∈ hexDigit (b.val / 16) :: hexDigit (b.val % 16) :: hexChars bs := hc
    rcases List.mem_cons.1 hc1 with h | h
    · rw [h]; exact hexDigit_mem ⟨b.val / 16, by omega⟩
    · rcases List.mem_cons.1 h with h | h
      · rw [h]; exact hexDigit_mem ⟨b.val % 16, by omega⟩
      · exact ih c h

theorem cipherParams_low16 (n : Nat) : cipherParams n = cipherParams (n % 65536) := by
  have h : ∀ m : Nat, m &&& 0x0000FFFF = m % 65536 := fun m =>
    Nat.and_pow_two_sub_one_eq_mod m 16
  unfold cipherParams
  simp only [h, Nat.mod_mod]

/-- An OpenSSL-family TLS1.3 event with a recognised cipher suite and its key
absent is written as the five lines. -/
theorem saveMasterSecret_tls13 (x : External T) (p : MOpenSSLProbe T) (e : MasterSecretEvent)
    (length : Nat) (transcript : Hash)
    (hv : e.Version = Tls13Version) (hk : fmtHex e.ClientRandom.val ∉ p.masterKeys)
    (hc : cipherParams e.CipherId = some (length, transcript)) :
    (saveMasterSecret x p e).keylogger = p.keylogger ++
        [(expectedTls13Lines x e length transcript).foldl (fun acc l => acc ++ l) ""] ∧
      (saveMasterSecret x p e).masterKeys = p.masterKeys ++ [fmtHex e.ClientRandom.val] := by
  have h12 : ¬ e.Version = Tls12Version := by rw [hv]; decide
  unfold saveMasterSecret
  dsimp only
  rw [if_neg hk, if_neg h12, if_pos hv, hc]
  dsimp only
  rw [saveMasterSecretWrite_keylogger, saveMasterSecretWrite_masterKeys]
  refine ⟨?_, mapSet_of_not_mem _ _ hk⟩
  simp only [expectedTls13Lines, List.foldl_cons, List.foldl_nil, String.empty_append]

end Lemmas

/-! ## Claims -/

/-- C1: in a run of `Dispatcher` over any sequence of events, started on a probe
whose dedup set is empty or holds any keys whatever, the events with client
random `r` cause at most one key-log write; a call of `saveMasterSecret` or `saveMasterSecretBSSL` that
writes found `hex(r)` absent from `masterKeys` and inserted it; `masterKeys`
never loses a key; and an event whose hex client random is already in
`masterKeys` leaves the whole probe, so the key-log file and `masterKeys`,
unchanged. -/
theorem C1_at_most_one_write_per_client_random {T : Type} (x : External T)
    (this : MOpenSSLProbe T) (es : List IEventStruct) (r : List Byte) :
    writesFor x r this es ≤ 1 ∧
    (∀ (p : MOpenSSLProbe T) (e : MasterSecretEvent),
        (saveMasterSecret x p e).keylogger ≠ p.keylogger →
          fmtHex e.ClientRandom.val ∉ p.masterKeys ∧
          fmtHex e.ClientRandom.val ∈ (saveMasterSecret x p e).masterKeys) ∧
    (∀ (p : MOpenSSLProbe T) (e : MasterSecretBSSLEvent),
        (saveMasterSecretBSSL x p e).keylogger ≠ p.keylogger →
          fmtHex e.ClientRandom.val ∉ p.masterKeys ∧
          fmtHex e.ClientRandom.val ∈ (saveMasterSecretBSSL x p e).masterKeys) ∧
    (∀ (p : MOpenSSLProbe T) (ev : IEventStruct) (k : String),
        k ∈ p.masterKeys → k ∈ (Dispatcher x p ev).masterKeys) ∧
    (∀ (p : MOpenSSLProbe T) (ev : IEventStruct) (r1 : List Byte),
        clientRandomOf ev = some r1 → fmtHex r1 ∈ p.masterKeys →
          (Dispatcher x p ev).keylogger = p.keylogger ∧
          (Dispatcher x p ev).masterKeys = p.masterKeys ∧
          Dispatcher x p ev = p) := by
  refine ⟨writesFor_le_one x r es this, saveMasterSecret_write x, saveMasterSecretBSSL_write x,
    Dispatcher_masterKeys_mono x, ?_⟩
  intro p ev r1 hr hk
  rw [Dispatcher_of_mem x p ev r1 hr hk]
  exact ⟨rfl, rfl, rfl⟩

/-- C2, as stated, fails: a single BoringSSL-family event whose five secret
buffers are all zero, dispatched to a fresh probe in a system where no call
fails, is a non-empty sequence of master-secret events sharing one client
random, and no key-log write is performed for it. -/
theorem C2_counterexample_null_event_writes_nothing :
    ¬ (∀ (x : External Unit) (this : MOpenSSLProbe Unit) (es : List IEventStruct)
        (r : List Byte),
        this.masterKeys = [] → this.status = Status.running → es ≠ [] →
        (∀ e ∈ es, isMasterSecret e = true ∧ clientRandomOf e = some r) →
        (dispatchAll x this es).status = Status.running →
        writesFor x r this es = 1) := by
  intro h
  have h1 := h sampleExternal sampleProbe
    [IEventStruct.MasterSecretBSSLEvent (sampleBSSLEvent Tls13Version 32 0 0)]
    (constBuf 32 1).val rfl rfl (by simp) (by simp [isMasterSecret, clientRandomOf, sampleBSSLEvent])
    (by decide)
  revert h1
  decide

/-- C2, amended: in a run of `Dispatcher` that is not cut short by a fatal write
error or a panic, started on a probe whose dedup set does not hold the key of
`r`, over any sequence of events in which no event for `r` is an OpenSSL-family
TLS1.3 event with an unrecognised cipher suite, the events for `r` cause exactly
one key-log write when at least one of them passes its guard (every
OpenSSL-family event does, a BoringSSL-family event when its null-secret guard
returns false) and none otherwise, whatever the order of the events and whatever
events of other sessions are interleaved. -/
theorem C2_exactly_one_write_when_some_event_passes {T : Type} (x : External T)
    (this : MOpenSSLProbe T) (es : List IEventStruct) (r : List Byte)
    (hfresh : fmtHex r ∉ this.masterKeys)
    (hrun : (dispatchAll x this es).status = Status.running)
    (hcipher : ∀ e ∈ es, clientRandomOf e = some r → unknownCipherSuite e = false) :
    writesFor x r this es =
      if es.any (fun e => decide (clientRandomOf e = some r) && passesGuard e) then 1 else 0 :=
  writesFor_exact x r es this hfresh hrun hcipher

/-- C2, amended, on a run with a premature BoringSSL-family event, an event of
another session and two identical events: one write for the client random. -/
theorem C2_exactly_one_write_witness :
    writesFor sampleExternal (constBuf 32 1).val sampleProbe sampleRun = 1 :=
  (C2_exactly_one_write_when_some_event_passes sampleExternal sampleProbe sampleRun
    (constBuf 32 1).val (by decide) (by decide) (by decide)).trans (by decide)

/-- C3, on the code: an OpenSSL-family TLS1.3 event whose cipher id is none of
the three known suites, with its key absent from the dedup set, writes nothing
to the key-log file but has its key inserted into `masterKeys` before the
cipher suite is looked at, so every later event with the same client random,
whatever its cipher suite, is dropped and leaves the probe as it is. -/
theorem C3_unknown_cipher_suite_still_inserts_key {T : Type} (x : External T)
    (this : MOpenSSLProbe T) (e : MasterSecretEvent)
    (h13 : e.Version = Tls13Version)
    (h1 : (e.CipherId &&& 0x0000FFFF) % 65536 ≠ TlsAes128GcmSha256)
    (h2 : (e.CipherId &&& 0x0000FFFF) % 65536 ≠ TlsChacha20Poly1305Sha256)
    (h3 : (e.CipherId &&& 0x0000FFFF) % 65536 ≠ TlsAes256GcmSha384)
    (hk : fmtHex e.ClientRandom.val ∉ this.masterKeys) :
    (saveMasterSecret x this e).keylogger = this.keylogger ∧
    (saveMasterSecret x this e).masterKeys = this.masterKeys ++ [fmtHex e.ClientRandom.val] ∧
    (saveMasterSecret x this e).masterKeys ≠ this.masterKeys ∧
    ∀ e2 : MasterSecretEvent, e2.ClientRandom = e.ClientRandom →
      saveMasterSecret x (saveMasterSecret x this e) e2 = saveMasterSecret x this e := by
  have hnone : cipherParams e.CipherId = none := by
    unfold cipherParams
    dsimp only
    rw [if_neg (by rintro (h | h); exact h1 h; exact h2 h), if_neg h3]
  have h12 : ¬ e.Version = Tls12Version := by rw [h13]; decide
  have hstate : saveMasterSecret x this e =
      { this with masterKeys := mapSet this.masterKeys (fmtHex e.ClientRandom.val)
                  logger := this.logger ++ [LogLine.nonTls13CipherSuite e.CipherId] } := by
    unfold saveMasterSecret
    dsimp only
    rw [if_neg hk, if_neg h12, if_pos h13, hnone]
  have hkeys : (saveMasterSecret x this e).masterKeys
      = this.masterKeys ++ [fmtHex e.ClientRandom.val] := by
    rw [hstate]; exact mapSet_of_not_mem _ _ hk
  refine ⟨by rw [hstate], hkeys, ?_, ?_⟩
  · rw [hkeys]
    intro h
    have := congrArg List.length h
    simp at this
  · intro e2 he2
    apply saveMasterSecret_of_mem
    rw [he2, hkeys]
    simp

/-- C3, on the code, at a concrete input: a fresh probe takes a TLS1.3 event
with the unknown cipher id `0x1305`, writes nothing and holds the event's key
afterwards; the event with the same client random and the suite
TLS_AES_128_GCM_SHA256 that follows is dropped, while the fresh probe would
have written it. -/
theorem C3_unknown_cipher_suite_witness :
    (saveMasterSecret sampleExternal sampleProbe (sampleEvent Tls13Version 0x1305)).keylogger
      = [] ∧
    (saveMasterSecret sampleExternal sampleProbe (sampleEvent Tls13Version 0x1305)).masterKeys
      = [] ++ [fmtHex (constBuf 32 1).val] ∧
    (saveMasterSecret sampleExternal
      (saveMasterSecret sampleExternal sampleProbe (sampleEvent Tls13Version 0x1305))
      (sampleEvent Tls13Version 0x1301)).keylogger = [] ∧
    (saveMasterSecret sampleExternal sampleProbe (sampleEvent Tls13Version 0x1301)).keylogger.length
      = 1 :=
  have h := C3_unknown_cipher_suite_still_inserts_key sampleExternal sampleProbe
    (sampleEvent Tls13Version 0x1305) rfl (by decide) (by decide) (by decide) (by decide)
  ⟨h.1, h.2.1, by rw [h.2.2.2 (sampleEvent Tls13Version 0x1301) rfl]; exact h.1, by decide⟩

/-- C4, as stated, fails: a BoringSSL-family TLS1.3 event of declared length 32
whose client handshake secret is non-zero and whose four other secret buffers
are all zero is discarded by a fresh probe (no write, `masterKeys` unchanged)
although not all five buffers are all zero. -/
theorem C4_counterexample_one_null_buffer_discards :
    ¬ (∀ (x : External Unit) (this : MOpenSSLProbe Unit) (e : MasterSecretBSSLEvent),
        e.Version = Tls13Version → e.HashLen ≤ 64 →
        fmtHex e.ClientRandom.val ∉ this.masterKeys →
        (((saveMasterSecretBSSL x this e).keylogger = this.keylogger ∧
          (saveMasterSecretBSSL x this e).masterKeys = this.masterKeys)
          ↔ allSecretsNull e = true)) := by
  intro h
  have h1 := h sampleExternal sampleProbe (sampleBSSLEvent Tls13Version 32 1 0)
    rfl (by decide) (by decide)
  revert h1
  decide

/-- C4, amended: for a BoringSSL-family event on the TLS1.3 path (any version
tag but the TLS1.2 one) with `HashLen` at most 64 and a client random not yet in
the dedup set, `bSSLEvent13NullSecrets` returns `true` exactly when at least one
of the five buffers `ClientHandshakeSecret`, `ClientTrafficSecret0`,
`ServerHandshakeSecret`, `ServerTrafficSecret0`, `ExporterSecret` is all zero on
`[0, HashLen)`; the event is then discarded and the probe is left as it is (no
write, `masterKeys` unchanged); when every one of the five buffers has a
non-zero byte in that range the key is inserted and the five lines are written
in one write; and the event is discarded if and only if at least one buffer is
all zero. -/
theorem C4_bssl_tls13_guard_discards_on_any_null_buffer {T : Type} (x : External T)
    (this : MOpenSSLProbe T) (e : MasterSecretBSSLEvent)
    (hv : e.Version ≠ Tls12Version) (hlen : e.HashLen ≤ 64)
    (hk : fmtHex e.ClientRandom.val ∉ this.masterKeys) :
    bSSLEvent13NullSecrets e = some (someSecretNull e) ∧
    (someSecretNull e = true → saveMasterSecretBSSL x this e = this) ∧
    (someSecretNull e = false →
      (saveMasterSecretBSSL x this e).keylogger = this.keylogger ++
        [keyLogLine KeyLogLabelClientHandshake e.ClientRandom.val
            (e.ClientHandshakeSecret.val.take e.HashLen)
          ++ keyLogLine KeyLogLabelClientTraffic e.ClientRandom.val
            (e.ClientTrafficSecret0.val.take e.HashLen)
          ++ keyLogLine KeyLogLabelServerHandshake e.ClientRandom.val
            (e.ServerHandshakeSecret.val.take e.HashLen)
          ++ keyLogLine KeyLogLabelServerTraffic e.ClientRandom.val
            (e.ServerTrafficSecret0.val.take e.HashLen)
          ++ keyLogLine KeyLogLabelExporterSecret e.ClientRandom.val
            (e.ExporterSecret.val.take e.HashLen)] ∧
      (saveMasterSecretBSSL x this e).masterKeys
        = this.masterKeys ++ [fmtHex e.ClientRandom.val]) ∧
    (((saveMasterSecretBSSL x this e).keylogger = this.keylogger ∧
      (saveMasterSecretBSSL x this e).masterKeys = this.masterKeys)
      ↔ someSecretNull e = true) := by
  have hg := bSSLEvent13NullSecrets_eq e hlen
  have hdiscard : someSecretNull e = true → saveMasterSecretBSSL x this e = this := by
    intro hn
    unfold saveMasterSecretBSSL
    dsimp only
    rw [if_neg hk, if_neg hv, hg, hn]
  have haccept : someSecretNull e = false →
      (saveMasterSecretBSSL x this e).keylogger = this.keylogger ++
        [keyLogLine KeyLogLabelClientHandshake e.ClientRandom.val
            (e.ClientHandshakeSecret.val.take e.HashLen)
          ++ keyLogLine KeyLogLabelClientTraffic e.ClientRandom.val
            (e.ClientTrafficSecret0.val.take e.HashLen)
          ++ keyLogLine KeyLogLabelServerHandshake e.ClientRandom.val
            (e.ServerHandshakeSecret.val.take e.HashLen)
          ++ keyLogLine KeyLogLabelServerTraffic e.ClientRandom.val
            (e.ServerTrafficSecret0.val.take e.HashLen)
          ++ keyLogLine KeyLogLabelExporterSecret e.ClientRandom.val
            (e.ExporterSecret.val.take e.HashLen)] ∧
      (saveMasterSecretBSSL x this e).masterKeys
        = this.masterKeys ++ [fmtHex e.ClientRandom.val] := by
    intro hn
    unfold saveMasterSecretBSSL
    dsimp only
    rw [if_neg hk, if_neg hv, hg, hn]
    dsimp only
    unfold bsslTls13Lines
    rw [sliceTo_of_le _ _ hlen, sliceTo_of_le _ _ hlen, sliceTo_of_le _ _ hlen,
      sliceTo_of_le _ _ hlen, sliceTo_of_le _ _ hlen]
    dsimp only
    rw [saveMasterSecretBSSLWrite_keylogger, saveMasterSecretBSSLWrite_masterKeys]
    exact ⟨rfl, mapSet_of_not_mem _ _ hk⟩
  refine ⟨hg, hdiscard, haccept, ?_⟩
  constructor
  · intro hsame
    cases hn : someSecretNull e with
    | true => rfl
    | false =>
      have := congrArg List.length ((haccept hn).1.symm.trans hsame.1)
      simp at this
  · intro hn
    rw [hdiscard hn]
    exact ⟨rfl, rfl⟩

/-- C4, amended, at a concrete input: a fresh probe takes a TLS1.3 event of
declared length 32 whose five buffers are all non-zero, and writes once. -/
theorem C4_bssl_tls13_guard_witness :
    someSecretNull (sampleBSSLEvent Tls13Version 32 1 1) = false ∧
    (saveMasterSecretBSSL sampleExternal sampleProbe
      (sampleBSSLEvent Tls13Version 32 1 1)).keylogger.length = 1 ∧
    (saveMasterSecretBSSL sampleExternal sampleProbe
      (sampleBSSLEvent Tls13Version 32 1 1)).masterKeys = [] ++ [fmtHex (constBuf 32 1).val] :=
  have h := C4_bssl_tls13_guard_discards_on_any_null_buffer sampleExternal sampleProbe
    (sampleBSSLEvent Tls13Version 32 1 1) (by decide) (by decide) (by decide)
  ⟨by decide, by rw [(h.2.2.1 (by decide)).1]; rfl, (h.2.2.1 (by decide)).2⟩

/-- C5: for a BoringSSL-family event with the TLS1.2 version tag, `HashLen` at
most 48 (the size of `Secret`) and a client random not yet in the dedup set,
`bSSLEvent12NullSecrets` returns `true` exactly when the bytes `Secret[0..HashLen)`
are all zero, and its result depends on nothing else; when it returns `true` the
probe is left as it is (no write, `masterKeys` unchanged), and otherwise exactly
the one line `CLIENT_RANDOM <hex(client_random)> <hex(Secret[:HashLen])>\n` is
written and the key is inserted into `masterKeys`. -/
theorem C5_bssl_tls12_guard {T : Type} (x : External T)
    (this : MOpenSSLProbe T) (e : MasterSecretBSSLEvent)
    (hv : e.Version = Tls12Version) (hlen : e.HashLen ≤ 48)
    (hk : fmtHex e.ClientRandom.val ∉ this.masterKeys) :
    bSSLEvent12NullSecrets e = some (allZeroTo e.Secret e.HashLen) ∧
    (allZeroTo e.Secret e.HashLen = true → saveMasterSecretBSSL x this e = this) ∧
    (allZeroTo e.Secret e.HashLen = false →
      (saveMasterSecretBSSL x this e).keylogger = this.keylogger ++
        ["CLIENT_RANDOM" ++ " " ++ fmtHex e.ClientRandom.val ++ " "
          ++ fmtHex (e.Secret.val.take e.HashLen) ++ "\n"] ∧
      (saveMasterSecretBSSL x this e).masterKeys
        = this.masterKeys ++ [fmtHex e.ClientRandom.val]) := by
  have hg := bSSLEvent12NullSecrets_eq e hlen
  refine ⟨hg, ?_, ?_⟩
  · intro hn
    unfold saveMasterSecretBSSL
    dsimp only
    rw [if_neg hk, if_pos hv, hg, hn]
  · intro hn
    unfold saveMasterSecretBSSL
    dsimp only
    rw [if_neg hk, if_pos hv, hg, hn]
    dsimp only
    rw [sliceTo_of_le _ _ hlen]
    dsimp only
    rw [saveMasterSecretBSSLWrite_keylogger, saveMasterSecretBSSLWrite_masterKeys]
    exact ⟨rfl, mapSet_of_not_mem _ _ hk⟩

/-- C5 at concrete inputs: a fresh probe writes one line for a TLS1.2 event of
declared length 32 with a non-zero secret, and is left as it is by one whose
secret is all zero. -/
theorem C5_bssl_tls12_guard_witness :
    (saveMasterSecretBSSL sampleExternal sampleProbe
      (sampleBSSLEvent Tls12Version 32 1 0)).keylogger.length = 1 ∧
    (saveMasterSecretBSSL sampleExternal sampleProbe
      (sampleBSSLEvent Tls12Version 32 0 1)).keylogger = [] :=
  have h := C5_bssl_tls12_guard sampleExternal sampleProbe
    (sampleBSSLEvent Tls12Version 32 1 0) rfl (by decide) (by decide)
  ⟨by rw [(h.2.2 (by decide)).1]; rfl, by decide⟩

/-- C6: for every 32-byte client random not yet in the dedup set and every
48-byte master key, `saveMasterSecret` on an OpenSSL-family event with the
TLS1.2 version tag performs one write of the one line
`<TLS1.2 label> <f1> <f2>\n`, in which `f1` (64 characters) and `f2` (96
characters) consist of lowercase hexadecimal digits, two per byte, and
hex-decoding `f1` and `f2` gives back exactly the client random and the master
key. -/
theorem C6_tls12_line_round_trip {T : Type} (x : External T)
    (this : MOpenSSLProbe T) (e : MasterSecretEvent)
    (hv : e.Version = Tls12Version)
    (hk : fmtHex e.ClientRandom.val ∉ this.masterKeys) :
    ∃ f1 f2 : List Char,
      (saveMasterSecret x this e).keylogger = this.keylogger ++
        [KeyLogLabelTLS12 ++ " " ++ String.mk f1 ++ " " ++ String.mk f2 ++ "\n"] ∧
      f1.length = 2 * 32 ∧ f2.length = 2 * 48 ∧
      (∀ c ∈ f1 ++ f2, c ∈ lowerHexDigits) ∧
      hexDecode f1 = some e.ClientRandom.val ∧
      hexDecode f2 = some e.MasterKey.val := by
  refine ⟨hexChars e.ClientRandom.val, hexChars e.MasterKey.val, ?_, ?_, ?_, ?_,
    hexDecode_hexChars _, hexDecode_hexChars _⟩
  · unfold saveMasterSecret
    dsimp only
    rw [if_neg hk, if_pos hv, saveMasterSecretWrite_keylogger]
    rfl
  · rw [hexChars_length, e.ClientRandom.property]
  · rw [hexChars_length, e.MasterKey.property]
  · intro c hc
    rcases List.mem_append.1 hc with h | h
    · exact hexChars_mem _ c h
    · exact hexChars_mem _ c h

/-- C6 at a concrete input: the line a fresh probe writes for a TLS1.2 event
whose client random is `0x01` repeated and whose master key is `0x02`
repeated. -/
theorem C6_tls12_line_witness :
    ∃ f1 f2 : List Char,
      (saveMasterSecret sampleExternal sampleProbe (sampleEvent Tls12Version 0)).keylogger
        = [] ++ [KeyLogLabelTLS12 ++ " " ++ String.mk f1 ++ " " ++ String.mk f2 ++ "\n"] ∧
      f1.length = 2 * 32 ∧ f2.length = 2 * 48 ∧
      (∀ c ∈ f1 ++ f2, c ∈ lowerHexDigits) ∧
      hexDecode f1 = some (constBuf 32 1).val ∧
      hexDecode f2 = some (constBuf 48 2).val :=
  C6_tls12_line_round_trip sampleExternal sampleProbe (sampleEvent Tls12Version 0) rfl (by decide)

/-- C7: for an OpenSSL-family TLS1.3 event whose client random is not yet in the
dedup set, the cipher id is read modulo 2^16, and when it is
TLS_AES_128_GCM_SHA256 or TLS_CHACHA20_POLY1305_SHA256 (length 32, SHA-256) or
TLS_AES_256_GCM_SHA384 (length 48, SHA-384), `saveMasterSecret` performs one
write of exactly the five lines client handshake, server handshake, client
traffic, server traffic, exporter secret, each
`<LABEL> <hex(client_random)> <hex(secret)>\n`, where the handshake secrets are
`ExpandLabel(HandshakeSecret[:length], label, HandshakeTrafficHash[:length],
length, hash)`, the traffic secrets are the buffers `ClientAppTrafficSecret` and
`ServerAppTrafficSecret` and the exporter secret is
`ExporterMasterSecret[:length]`; the key is inserted, and a second identical
event leaves the probe, so the key-log file, as it is. -/
theorem C7_tls13_openssl_five_lines {T : Type} (x : External T)
    (this : MOpenSSLProbe T) (e : MasterSecretEvent)
    (hv : e.Version = Tls13Version)
    (hk : fmtHex e.ClientRandom.val ∉ this.masterKeys) :
    cipherParams e.CipherId = cipherParams (e.CipherId % 65536) ∧
    (∀ (length : Nat) (transcript : Hash),
      ((e.CipherId % 65536 = TlsAes128GcmSha256 ∨
          e.CipherId % 65536 = TlsChacha20Poly1305Sha256) ∧
          length = 32 ∧ transcript = Hash.SHA256) ∨
        (e.CipherId % 65536 = TlsAes256GcmSha384 ∧ length = 48 ∧ transcript = Hash.SHA384) →
      (saveMasterSecret x this e).keylogger = this.keylogger ++
        [keyLogLine KeyLogLabelClientHandshake e.ClientRandom.val
            (x.ExpandLabel (e.HandshakeSecret.val.take length) ClientHandshakeTrafficLabel
              (e.HandshakeTrafficHash.val.take length) length transcript)
          ++ keyLogLine KeyLogLabelServerHandshake e.ClientRandom.val
            (x.ExpandLabel (e.HandshakeSecret.val.take length) ServerHandshakeTrafficLabel
              (e.HandshakeTrafficHash.val.take length) length transcript)
          ++ keyLogLine KeyLogLabelClientTraffic e.ClientRandom.val e.ClientAppTrafficSecret.val
          ++ keyLogLine KeyLogLabelServerTraffic e.ClientRandom.val e.ServerAppTrafficSecret.val
          ++ keyLogLine KeyLogLabelExporterSecret e.ClientRandom.val
            (e.ExporterMasterSecret.val.take length)] ∧
      (saveMasterSecret x this e).masterKeys = this.masterKeys ++ [fmtHex e.ClientRandom.val] ∧
      saveMasterSecret x (saveMasterSecret x this e) e = saveMasterSecret x this e ∧
      (saveMasterSecret x (saveMasterSecret x this e) e).keylogger
        = (saveMasterSecret x this e).keylogger) := by
  refine ⟨cipherParams_low16 _, ?_⟩
  intro length transcript hsel
  have hc : cipherParams e.CipherId = some (length, transcript) := by
    rw [cipherParams_low16]
    rcases hsel with ⟨h | h, hl, ht⟩ | ⟨h, hl, ht⟩ <;> subst hl <;> subst ht
    · unfold cipherParams; simp [h]; decide
    · unfold cipherParams; simp [h]; decide
    · unfold cipherParams; simp [h]; decide
  obtain ⟨hlog, hkeys⟩ := saveMasterSecret_tls13 x this e length transcript hv hk hc
  have hsecond : saveMasterSecret x (saveMasterSecret x this e) e = saveMasterSecret x this e := by
    apply saveMasterSecret_of_mem
    rw [hkeys]
    simp
  refine ⟨?_, hkeys, hsecond, by rw [hsecond]⟩
  rw [hlog]
  simp only [expectedTls13Lines, List.foldl_cons, List.foldl_nil, String.empty_append]

/-- C7 at a concrete input: a fresh probe takes a TLS1.3 event with the suite
TLS_AES_128_GCM_SHA256 twice; the first call writes once, the second leaves the
key-log file as it is. -/
theorem C7_tls13_openssl_witness :
    (saveMasterSecret sampleExternal sampleProbe (sampleEvent Tls13Version 0x1301)).keylogger.length
      = 1 ∧
    (saveMasterSecret sampleExternal
      (saveMasterSecret sampleExternal sampleProbe (sampleEvent Tls13Version 0x1301))
      (sampleEvent Tls13Version 0x1301)).keylogger
      = (saveMasterSecret sampleExternal sampleProbe (sampleEvent Tls13Version 0x1301)).keylogger :=
  have h := (C7_tls13_openssl_five_lines sampleExternal sampleProbe
    (sampleEvent Tls13Version 0x1301) rfl (by decide)).2 32 Hash.SHA256
    (Or.inl ⟨Or.inl (by decide), rfl, rfl⟩)
  ⟨by rw [h.1]; rfl, h.2.2.2⟩

/-- C8, as stated, fails for both probes: in a system where the attachment
teardown `bpfManager.Stop(CleanAll)` fails, `Close` returns an error and has
not called `Module.Close`. -/
theorem C8_counterexample_close_returns_early :
    ¬ (∀ (x : External Unit) (this : MOpenSSLProbe Unit),
        x.Stop this.bpfManager = true →
        (MOpenSSLProbe.Close x this).2 = true ∧
          ReleaseCall.ModuleClose ∈ (MOpenSSLProbe.Close x this).1.released) ∧
    ¬ (∀ (x : External Unit) (this : MBashProbe),
        x.Stop this.bpfManager = true →
        (MBashProbe.Close x this).2 = true ∧
          ReleaseCall.ModuleClose ∈ (MBashProbe.Close x this).1.released) := by
  constructor
  · intro h
    have h1 := h stopFailsExternal sampleProbe rfl
    revert h1
    decide
  · intro h
    have h1 := h stopFailsExternal sampleBashProbe rfl
    revert h1
    decide

/-- C8, amended: for every TLS probe and every shell-command probe, `Close`
calls the attachment teardown `bpfManager.Stop(CleanAll)`; when that returns an
error, `Close` returns an error at once and `Module.Close` is not called; when
it succeeds, `Close` calls `Module.Close` and returns its result. -/
theorem C8_close_stops_at_teardown_error {T : Type} (x : External T)
    (this : MOpenSSLProbe T) (bash : MBashProbe) :
    (MOpenSSLProbe.Close x this).2
      = (if x.Stop this.bpfManager then true else x.ModuleClose) ∧
    (MOpenSSLProbe.Close x this).1.released
      = this.released ++ (if x.Stop this.bpfManager then [ReleaseCall.Stop]
          else [ReleaseCall.Stop, ReleaseCall.ModuleClose]) ∧
    (MBashProbe.Close x bash).2
      = (if x.Stop bash.bpfManager then true else x.ModuleClose) ∧
    (MBashProbe.Close x bash).1.released
      = bash.released ++ (if x.Stop bash.bpfManager then [ReleaseCall.Stop]
          else [ReleaseCall.Stop, ReleaseCall.ModuleClose]) := by
  have hm : (this.closeSavePcapng x).bpfManager = this.bpfManager ∧
      (this.closeSavePcapng x).released = this.released := by
    unfold MOpenSSLProbe.closeSavePcapng
    split <;> exact ⟨rfl, rfl⟩
  refine ⟨?_, ?_, ?_, ?_⟩
  · unfold MOpenSSLProbe.Close
    dsimp only
    rw [hm.1]
    split <;> rfl
  · unfold MOpenSSLProbe.Close
    dsimp only
    rw [hm.1, hm.2]
    split <;> simp
  · unfold MBashProbe.Close
    dsimp only
    split <;> rfl
  · unfold MBashProbe.Close
    dsimp only
    split <;> simp

/-- C9, on the code: with the path kind "executable" and an existing
`Curlpath`, `setupManagersUprobe` on a probe fresh from `Init` returns no error
and builds a plan whose master-key attach point names the empty function,
because that branch never calls `getSslBpfFile`; with the path kind "shared
library" the same probe gets the OpenSSL hook function. -/
theorem C9_executable_path_leaves_hook_unset :
    (setupManagersUprobe sampleExternal sampleBinProbe).2 = false ∧
    ((setupManagersUprobe sampleExternal sampleBinProbe).1.bpfManager.bind masterKeyProbe).map
      (fun pr => pr.AttachToFuncName) = some "" ∧
    (setupManagersUprobe sampleExternal sampleProbe).2 = false ∧
    ((setupManagersUprobe sampleExternal sampleProbe).1.bpfManager.bind masterKeyProbe).map
      (fun pr => pr.AttachToFuncName) = some MasterKeyHookFuncOpenSSL := by
  decide

/-- C10, as stated, fails: on a probe whose `isBoringSSL` is already `true`, a
call of `getSslBpfFile` that selects a payload name without "boringssl" leaves
`isBoringSSL` `true`. -/
theorem C10_counterexample_flag_never_reset :
    ¬ (∀ (x : External Unit) (this : MOpenSSLProbe Unit) (soPath sslVersion : String),
        ((getSslBpfFile x this soPath sslVersion).1.isBoringSSL = true ↔
          stringsContains (getSslBpfFile x this soPath sslVersion).1.sslBpfFile "boringssl"
            = true)) := by
  intro h
  have h1 := h sampleExternal { sampleProbe with isBoringSSL := true } "/lib/libssl.so.1.1" ""
  revert h1
  decide

/-- C10, amended: for every prior probe state in which `isBoringSSL` is `false`
(as `Init` leaves it) and every call `getSslBpfFile(soPath, sslVersion)`, after
the call `isBoringSSL` is `true` exactly when the selected payload name
`sslBpfFile` contains "boringssl"; and for every prior state whatever,
`masterHookFunc` is the BoringSSL hook name (`SSL_in_init`) when it does and the
OpenSSL hook name (`SSL_write`) otherwise, and `isBoringSSL` is `true` when it
does. -/
theorem C10_family_flag_after_getSslBpfFile {T : Type} (x : External T)
    (this : MOpenSSLProbe T) (soPath sslVersion : String)
    (hinit : this.isBoringSSL = false) :
    (getSslBpfFile x this soPath sslVersion).1.isBoringSSL
      = stringsContains (getSslBpfFile x this soPath sslVersion).1.sslBpfFile "boringssl" ∧
    (∀ prior : MOpenSSLProbe T,
      (getSslBpfFile x prior soPath sslVersion).1.masterHookFunc
        = (if stringsContains (getSslBpfFile x prior soPath sslVersion).1.sslBpfFile "boringssl"
            then "SSL_in_init" else "SSL_write") ∧
      (stringsContains (getSslBpfFile x prior soPath sslVersion).1.sslBpfFile "boringssl" = true →
        (getSslBpfFile x prior soPath sslVersion).1.isBoringSSL = true)) := by
  have hdefer : ∀ q : MOpenSSLProbe T,
      (getSslBpfFileDefer q).sslBpfFile = q.sslBpfFile ∧
      (getSslBpfFileDefer q).masterHookFunc
        = (if stringsContains q.sslBpfFile "boringssl" then "SSL_in_init" else "SSL_write") ∧
      (getSslBpfFileDefer q).isBoringSSL
        = (stringsContains q.sslBpfFile "boringssl" || q.isBoringSSL) := by
    intro q
    unfold getSslBpfFileDefer
    split <;> rename_i hc
    · simp [hc, MasterKeyHookFuncBoringSSL]
    · simp [hc, MasterKeyHookFuncOpenSSL]
  have hbody : ∀ q : MOpenSSLProbe T,
      (getSslBpfFileBody x q soPath sslVersion).1.isBoringSSL = q.isBoringSSL := by
    intro q
    unfold getSslBpfFileBody getSslBpfFileDetect
    dsimp only
    split
    · split <;> rfl
    · rfl
  have hget : ∀ q : MOpenSSLProbe T, (getSslBpfFile x q soPath sslVersion).1
      = getSslBpfFileDefer (getSslBpfFileBody x q soPath sslVersion).1 := fun _ => rfl
  constructor
  · rw [hget, (hdefer _).2.2, (hdefer _).1, hbody, hinit, Bool.or_false]
  · intro prior
    rw [hget, (hdefer _).2.1, (hdefer _).1, (hdefer _).2.2]
    refine ⟨rfl, ?_⟩
    intro hc
    rw [hc, Bool.true_or]

/-- C10, amended, at a concrete input: on a fresh probe whose version table
maps "boringssl 1.1.1" to a BoringSSL payload, the call sets the flag and the
BoringSSL hook function. -/
theorem C10_family_flag_witness :
    (getSslBpfFile sampleExternal
      { sampleProbe with sslVersionBpfMap := [("boringssl 1.1.1", "boringssl_1_1_1_kern.o")] }
      "/lib/libssl.so" "boringssl 1.1.1").1.isBoringSSL = true ∧
    (getSslBpfFile sampleExternal
      { sampleProbe with sslVersionBpfMap := [("boringssl 1.1.1", "boringssl_1_1_1_kern.o")] }
      "/lib/libssl.so" "boringssl 1.1.1").1.masterHookFunc = "SSL_in_init" :=
  have h := C10_family_flag_after_getSslBpfFile sampleExternal
    { sampleProbe with sslVersionBpfMap := [("boringssl 1.1.1", "boringssl_1_1_1_kern.o")] }
    "/lib/libssl.so" "boringssl 1.1.1" rfl
  ⟨h.1.trans (by decide), by decide⟩

/-- C12: for every probe state and every event that is a connection event, or
any variant other than the OpenSSL master-secret, BoringSSL master-secret and
raw capture events (a TLS record event, a shell-command event), `Dispatcher`
returns, with no error to return, and leaves the probe exactly as it was: no
key-log write, no call on the capture sink, the dedup set and every other
field unchanged, the process still running if it was. -/
theorem C12_dispatcher_no_effect_outside_table {T : Type} (x : External T)
    (this : MOpenSSLProbe T) (ev : IEventStruct)
    (h1 : ∀ e, ev ≠ IEventStruct.MasterSecretEvent e)
    (h2 : ∀ e, ev ≠ IEventStruct.MasterSecretBSSLEvent e)
    (h3 : ∀ e, ev ≠ IEventStruct.TcSkbEvent e) :
    Dispatcher x this ev = this ∧
    (Dispatcher x this ev).keylogger = this.keylogger ∧
    (Dispatcher x this ev).mtc = this.mtc ∧
    (Dispatcher x this ev).masterKeys = this.masterKeys ∧
    (Dispatcher x this ev).status = this.status := by
  have h : Dispatcher x this ev = this := by
    cases ev with
    | ConnDataEvent => rfl
    | SSLDataEvent => rfl
    | BashEvent => rfl
    | MasterSecretEvent e => exact absurd rfl (h1 e)
    | MasterSecretBSSLEvent e => exact absurd rfl (h2 e)
    | TcSkbEvent e => exact absurd rfl (h3 e)
  rw [h]
  exact ⟨rfl, rfl, rfl, rfl, rfl⟩

/-- C12 at concrete inputs: a connection event and a TLS record event leave a
probe that has already written one session as it is. -/
theorem C12_dispatcher_no_effect_witness :
    Dispatcher sampleExternal
        (saveMasterSecret sampleExternal sampleProbe (sampleEvent Tls12Version 0))
        IEventStruct.ConnDataEvent
      = saveMasterSecret sampleExternal sampleProbe (sampleEvent Tls12Version 0) ∧
    Dispatcher sampleExternal sampleProbe IEventStruct.SSLDataEvent = sampleProbe :=
  ⟨(C12_dispatcher_no_effect_outside_table sampleExternal
      (saveMasterSecret sampleExternal sampleProbe (sampleEvent Tls12Version 0))
      IEventStruct.ConnDataEvent (fun _ h => IEventStruct.noConfusion h)
      (fun _ h => IEventStruct.noConfusion h) (fun _ h => IEventStruct.noConfusion h)).1,
   rfl⟩

/-- C13, on the code: for an accepted OpenSSL-family TLS1.3 event with selected
length `L` (32 or 48), `saveMasterSecret` writes the client-traffic and the
server-traffic line with the whole 64-byte buffers `ClientAppTrafficSecret` and
`ServerAppTrafficSecret`, so their secret fields have 128 hexadecimal digits and
not `2 * L`; only `ExporterMasterSecret` is cut to its first `L` bytes, and its
field has `2 * L` digits. -/
theorem C13_traffic_secrets_written_uncut {T : Type} (x : External T)
    (this : MOpenSSLProbe T) (e : MasterSecretEvent) (length : Nat) (transcript : Hash)
    (hv : e.Version = Tls13Version)
    (hk : fmtHex e.ClientRandom.val ∉ this.masterKeys)
    (hc : cipherParams e.CipherId = some (length, transcript)) :
    (length = 32 ∨ length = 48) ∧
    (saveMasterSecret x this e).keylogger = this.keylogger ++
      [keyLogLine KeyLogLabelClientHandshake e.ClientRandom.val
          (x.ExpandLabel (e.HandshakeSecret.val.take length) ClientHandshakeTrafficLabel
            (e.HandshakeTrafficHash.val.take length) length transcript)
        ++ keyLogLine KeyLogLabelServerHandshake e.ClientRandom.val
          (x.ExpandLabel (e.HandshakeSecret.val.take length) ServerHandshakeTrafficLabel
            (e.HandshakeTrafficHash.val.take length) length transcript)
        ++ keyLogLine KeyLogLabelClientTraffic e.ClientRandom.val e.ClientAppTrafficSecret.val
        ++ keyLogLine KeyLogLabelServerTraffic e.ClientRandom.val e.ServerAppTrafficSecret.val
        ++ keyLogLine KeyLogLabelExporterSecret e.ClientRandom.val
          (e.ExporterMasterSecret.val.take length)] ∧
    (fmtHex e.ClientAppTrafficSecret.val).length = 128 ∧
    (fmtHex e.ServerAppTrafficSecret.val).length = 128 ∧
    (fmtHex (e.ExporterMasterSecret.val.take length)).length = 2 * length ∧
    (fmtHex e.ClientAppTrafficSecret.val).length ≠ 2 * length ∧
    (fmtHex e.ServerAppTrafficSecret.val).length ≠ 2 * length := by
  have hlen : length = 32 ∨ length = 48 := by
    unfold cipherParams at hc
    dsimp only at hc
    split at hc
    · left
      exact (congrArg Prod.fst (Option.some.inj hc)).symm
    · split at hc
      · right
        exact (congrArg Prod.fst (Option.some.inj hc)).symm
      · cases hc
  have hcts : (fmtHex e.ClientAppTrafficSecret.val).length = 128 := by
    show (hexChars e.ClientAppTrafficSecret.val).length = 128
    rw [hexChars_length, e.ClientAppTrafficSecret.property]
  have hsts : (fmtHex e.ServerAppTrafficSecret.val).length = 128 := by
    show (hexChars e.ServerAppTrafficSecret.val).length = 128
    rw [hexChars_length, e.ServerAppTrafficSecret.property]
  have hes : (fmtHex (e.ExporterMasterSecret.val.take length)).length = 2 * length := by
    show (hexChars (e.ExporterMasterSecret.val.take length)).length = 2 * length
    rw [hexChars_length, List.length_take, e.ExporterMasterSecret.property]
    omega
  refine ⟨hlen, ?_, hcts, hsts, hes, ?_, ?_⟩
  · rw [(saveMasterSecret_tls13 x this e length transcript hv hk hc).1]
    simp only [expectedTls13Lines, List.foldl_cons, List.foldl_nil, String.empty_append]
  · rw [hcts]; omega
  · rw [hsts]; omega

/-- C13, on the code, at a concrete input: a fresh probe takes a TLS1.3 event
with the suite TLS_AES_128_GCM_SHA256 (length 32) and writes client-traffic and
server-traffic secret fields of 128 hexadecimal digits, and an exporter field of
64. -/
theorem C13_traffic_secrets_written_uncut_witness :
    (fmtHex (sampleEvent Tls13Version 0x1301).ClientAppTrafficSecret.val).length = 128 ∧
    (fmtHex (sampleEvent Tls13Version 0x1301).ServerAppTrafficSecret.val).length = 128 ∧
    (fmtHex ((sampleEvent Tls13Version 0x1301).ExporterMasterSecret.val.take 32)).length
      = 2 * 32 ∧
    (saveMasterSecret sampleExternal sampleProbe (sampleEvent Tls13Version 0x1301)).keylogger
      = [] ++
      [keyLogLine KeyLogLabelClientHandshake (constBuf 32 1).val
          (sampleExternal.ExpandLabel ((constBuf 64 2).val.take 32) ClientHandshakeTrafficLabel
            ((constBuf 64 2).val.take 32) 32 Hash.SHA256)
        ++ keyLogLine KeyLogLabelServerHandshake (constBuf 32 1).val
          (sampleExternal.ExpandLabel ((constBuf 64 2).val.take 32) ServerHandshakeTrafficLabel
            ((constBuf 64 2).val.take 32) 32 Hash.SHA256)
        ++ keyLogLine KeyLogLabelClientTraffic (constBuf 32 1).val (constBuf 64 2).val
        ++ keyLogLine KeyLogLabelServerTraffic (constBuf 32 1).val (constBuf 64 2).val
        ++ keyLogLine KeyLogLabelExporterSecret (constBuf 32 1).val
          ((constBuf 64 2).val.take 32)] :=
  have h := C13_traffic_secrets_written_uncut sampleExternal sampleProbe
    (sampleEvent Tls13Version 0x1301) 32 Hash.SHA256 rfl (by decide) (by decide)
  ⟨h.2.2.1, h.2.2.2.1, h.2.2.2.2.1, h.2.1⟩

/-- The plan `setupManagersUprobe` builds once the binary path is resolved and
found to exist. -/
theorem setupManagersUprobePlan_ok {T : Type} (x : External T) (p : MOpenSSLProbe T)
    (binaryPath : String) (h : (setupManagersUprobePlan x p binaryPath).2 = false) :
    (setupManagersUprobePlan x p binaryPath).1.bpfManager = some
      { Probes :=
          [{ Section := "uprobe/SSL_write", EbpfFuncName := "probe_entry_SSL_write",
             AttachToFuncName := "SSL_write", BinaryPath := binaryPath },
           { Section := "uretprobe/SSL_write", EbpfFuncName := "probe_ret_SSL_write",
             AttachToFuncName := "SSL_write", BinaryPath := binaryPath },
           { Section := "uprobe/SSL_read", EbpfFuncName := "probe_entry_SSL_read",
             AttachToFuncName := "SSL_read", BinaryPath := binaryPath },
           { Section := "uretprobe/SSL_read", EbpfFuncName := "probe_ret_SSL_read",
             AttachToFuncName := "SSL_read", BinaryPath := binaryPath },
           { Section := "uprobe/SSL_write_key", EbpfFuncName := "probe_ssl_master_key",
             AttachToFuncName := (setupManagersUprobePlan x p binaryPath).1.masterHookFunc,
             BinaryPath := binaryPath, UID := "uprobe_ssl_master_key" }]
        Maps := ["tls_events", "connect_events", "mastersecret_events"] } := by
  revert h
  unfold setupManagersUprobePlan
  dsimp only
  split
  · intro h; cases h
  · intro _
    split <;> rfl

/-- C11: for every configuration, the plan `MBashProbe.setupManagers` builds has
exactly the two attach points, return probes on `readline` and
`execute_command`, and exactly the one channel `events`; the plan
`setupManagersUprobe` builds, whenever it returns no error, has exactly the five
attach points, entry and return on `SSL_write`, entry and return on `SSL_read`
and the master-key probe, and exactly the three channels `tls_events`,
`connect_events`, `mastersecret_events`; and every attach point of either plan
is bound to the one resolved binary path: the configured executable path, the
configured library path, or `/bin/bash` resp.
`/lib/x86_64-linux-gnu/libssl.so.1.1` when the kind is unset. -/
theorem C11_attach_plan_completeness {T : Type} (x : External T)
    (this : MOpenSSLProbe T) (bash : MBashProbe)
    (hok : (setupManagersUprobe x this).2 = false) :
    bash.setupManagers.bpfManager = some
      { Probes :=
          [{ Section := "uretprobe/bash_readline", EbpfFuncName := "uretprobe_bash_readline",
             AttachToFuncName := "readline", BinaryPath := bashBinaryPath bash.conf },
           { Section := "uretprobe/bash_retval", EbpfFuncName := "uretprobe_bash_retval",
             AttachToFuncName := "execute_command", BinaryPath := bashBinaryPath bash.conf }]
        Maps := ["events"] } ∧
    (setupManagersUprobe x this).1.bpfManager = some
      { Probes :=
          [{ Section := "uprobe/SSL_write", EbpfFuncName := "probe_entry_SSL_write",
             AttachToFuncName := "SSL_write", BinaryPath := sslBinaryPath this.conf },
           { Section := "uretprobe/SSL_write", EbpfFuncName := "probe_ret_SSL_write",
             AttachToFuncName := "SSL_write", BinaryPath := sslBinaryPath this.conf },
           { Section := "uprobe/SSL_read", EbpfFuncName := "probe_entry_SSL_read",
             AttachToFuncName := "SSL_read", BinaryPath := sslBinaryPath this.conf },
           { Section := "uretprobe/SSL_read", EbpfFuncName := "probe_ret_SSL_read",
             AttachToFuncName := "SSL_read", BinaryPath := sslBinaryPath this.conf },
           { Section := "uprobe/SSL_write_key", EbpfFuncName := "probe_ssl_master_key",
             AttachToFuncName := (setupManagersUprobe x this).1.masterHookFunc,
             BinaryPath := sslBinaryPath this.conf, UID := "uprobe_ssl_master_key" }]
        Maps := ["tls_events", "connect_events", "mastersecret_events"] } ∧
    (∀ m, bash.setupManagers.bpfManager = some m →
      m.Probes.length = 2 ∧ m.Maps = ["events"] ∧
      ∀ pr ∈ m.Probes, pr.BinaryPath = bashBinaryPath bash.conf) ∧
    (∀ m, (setupManagersUprobe x this).1.bpfManager = some m →
      m.Probes.length = 5 ∧ m.Maps = ["tls_events", "connect_events", "mastersecret_events"] ∧
      ∀ pr ∈ m.Probes, pr.BinaryPath = sslBinaryPath this.conf) := by
  have hbash : bash.setupManagers.bpfManager = some
      { Probes :=
          [{ Section := "uretprobe/bash_readline", EbpfFuncName := "uretprobe_bash_readline",
             AttachToFuncName := "readline", BinaryPath := bashBinaryPath bash.conf },
           { Section := "uretprobe/bash_retval", EbpfFuncName := "uretprobe_bash_retval",
             AttachToFuncName := "execute_command", BinaryPath := bashBinaryPath bash.conf }]
        Maps := ["events"] } := by
    unfold MBashProbe.setupManagers bashBinaryPath
    dsimp only
    split <;> rfl
  have hssl : ∃ q : MOpenSSLProbe T,
      setupManagersUprobe x this = setupManagersUprobePlan x q (sslBinaryPath this.conf) := by
    revert hok
    unfold setupManagersUprobe sslBinaryPath
    dsimp only
    split
    · intro _; exact ⟨this, rfl⟩
    · split
      · rcases hg : getSslBpfFile x this this.conf.Openssl (x.ToLower this.conf.SslVersion)
          with ⟨q, err⟩
        cases err
        · intro _; exact ⟨q, rfl⟩
        · intro h; cases h
      · rcases hg : getSslBpfFile x this "/lib/x86_64-linux-gnu/libssl.so.1.1"
          (x.ToLower this.conf.SslVersion) with ⟨q, err⟩
        cases err
        · intro _; exact ⟨q, rfl⟩
        · intro h; cases h
  obtain ⟨q, hq⟩ := hssl
  have hplan := setupManagersUprobePlan_ok x q (sslBinaryPath this.conf) (by rw [← hq]; exact hok)
  rw [← hq] at hplan
  refine ⟨hbash, hplan, ?_, ?_⟩
  · intro m hm
    rw [hbash] at hm
    cases hm
    refine ⟨rfl, rfl, ?_⟩
    intro pr hpr
    simp only [List.mem_cons, List.mem_singleton, List.not_mem_nil, or_false] at hpr
    rcases hpr with h | h <;> rw [h]
  · intro m hm
    rw [hplan] at hm
    cases hm
    refine ⟨rfl, rfl, ?_⟩
    intro pr hpr
    simp only [List.mem_cons, List.mem_singleton, List.not_mem_nil, or_false] at hpr
    rcases hpr with h | h | h | h | h <;> rw [h]

/-- C11 at concrete inputs: the plans of a shell-command probe configured with
an executable path and of a TLS probe configured with a library path. -/
theorem C11_attach_plan_witness :
    (setupManagersUprobe sampleExternal sampleProbe).2 = false ∧
    (sampleBashProbe.setupManagers.bpfManager.map fun m => (m.Probes.length, m.Maps))
      = some (2, ["events"]) ∧
    ((setupManagersUprobe sampleExternal sampleProbe).1.bpfManager.map
        fun m => (m.Probes.length, m.Maps))
      = some (5, ["tls_events", "connect_events", "mastersecret_events"]) ∧
    ((setupManagersUprobe sampleExternal sampleProbe).1.bpfManager.map
        fun m => m.Probes.map fun pr => pr.BinaryPath)
      = some (List.replicate 5 "/lib/libssl.so.1.1") :=
  have h := C11_attach_plan_completeness sampleExternal sampleProbe sampleBashProbe (by decide)
  ⟨by decide, by rw [h.1]; rfl, by rw [h.2.1]; rfl, by rw [h.2.1]; decide⟩

end Ecapture
